import Mathlib

/-!
# Verification of the job_queue lifecycle engine (JQ_BE)

Shallow embedding of the Django application `src/JQ_BE` (models.py, views.py,
tasks.py, processing.py, exceptions.py, settings.py) into Lean 4.

Modelling conventions:
* Wall-clock timestamps are `Nat` seconds.  A source comparison of the form
  `updated_at < now - TIMEOUT` is written additively (`updated_at + TIMEOUT < now`)
  because datetimes are unbounded while `Nat` subtraction truncates.
* JSON values are the inductive `PyVal`; JSON numbers are carried as `Int`
  (no claim in this development depends on fractional numerics).
* Python `dict` rows are association lists `Row := List (String × PyVal)`;
  a lookup that Python would answer with `None` yields `PyVal.VNull`.
* External collaborators (Django's `validate_email` inside
  `_passes_basic_validation`, `json.loads` inside `_normalize_list`,
  `random.randint` / `random.uniform`) are taken as explicit parameters of the
  embedded functions, so every theorem quantifies over their behaviour.
* `job.save()` on a Django model with `auto_now` stamps `updated_at`; each
  embedded operation that saves sets `updated_at := now` accordingly.
-/

/-- JSON-like values, as stored in `input_payload` / `config` / rows. -/
inductive PyVal where
  | VNull : PyVal
  | VBool : Bool → PyVal
  | VNum  : Int → PyVal
  | VStr  : String → PyVal
  | VList : List PyVal → PyVal

/-- A JSON object row (Python `dict`): association list of key/value pairs. -/
abbrev Row : Type := List (String × PyVal)

/-- A row of `payload["rows"]`: either a JSON object or some other JSON value
(`_process_rows` counts non-dict entries as invalid). -/
inductive RowItem where
  | RDict  : Row → RowItem
  | ROther : PyVal → RowItem

/-- The part of `input_payload` the engine reads: `rows`, the extracted
`config` object, and whether `csv_meta` is present/truthy. -/
structure Payload where
  rows : List RowItem
  config : List (String × PyVal)
  csv_meta : Bool

/-- Python truthiness of a `PyVal` (`bool(value)`). -/
def pyTruthy : PyVal → Bool
  | .VNull => false
  | .VBool b => b
  | .VNum n => n != 0
  | .VStr s => s != ""
  | .VList l => !l.isEmpty

mutual
/-- Python `str(value)` for JSON values (string escaping inside `repr` of
nested strings is elided). -/
def pyStr : PyVal → String
  | .VNull => "None"
  | .VBool b => if b then "True" else "False"
  | .VNum n => toString n
  | .VStr s => s
  | .VList l => "[" ++ String.intercalate ", " (pyReprList l) ++ "]"

/-- Python `repr(value)` for JSON values. -/
def pyRepr : PyVal → String
  | .VNull => "None"
  | .VBool b => if b then "True" else "False"
  | .VNum n => toString n
  | .VStr s => "\x27" ++ s ++ "\x27"
  | .VList l => "[" ++ String.intercalate ", " (pyReprList l) ++ "]"

def pyReprList : List PyVal → List String
  | [] => []
  | v :: vs => pyRepr v :: pyReprList vs
end

/-- Python `str.strip()`: whitespace removed from both ends.  (Defined over
the character list so that it reduces definitionally.) -/
def pyStrip (s : String) : String :=
  ⟨((s.data.dropWhile Char.isWhitespace).reverse.dropWhile
      Char.isWhitespace).reverse⟩

/-- Python `str.lower()`. -/
def pyLower (s : String) : String := ⟨s.data.map Char.toLower⟩

/-- Python `str.lstrip("\ufeff")`. -/
def pyLstripBom (s : String) : String := ⟨s.data.dropWhile (· == '\ufeff')⟩

/-- Python `str.split(",")`, on the character list. -/
def pySplitCommaAux : List Char → List Char → List String
  | [], acc => [⟨acc.reverse⟩]
  | c :: cs, acc =>
    if c == ',' then ⟨acc.reverse⟩ :: pySplitCommaAux cs []
    else pySplitCommaAux cs (c :: acc)

/-- Python `str.split(",")`. -/
def pySplitComma (s : String) : List String := pySplitCommaAux s.data []

/-- Python `len(...)` of a string. -/
def pyLen (s : String) : Nat := s.data.length

/-- Python `s.startswith("[")`. -/
def startsWithBracket (s : String) : Bool := s.data.head? == some '['

/-- Python `s.endswith("]")`. -/
def endsWithBracket (s : String) : Bool := s.data.getLast? == some ']'

/-! ## models.py -/

/-- `JobStatus` choices (models.py). -/
inductive JobStatus where
  | PENDING | THROTTLED | RUNNING | DONE | FAILED | DLQ
deriving DecidableEq, Repr

/-- `JobStage` choices (models.py). -/
inductive JobStage where
  | VALIDATING | PROCESSING | FINALIZING | DONE
deriving DecidableEq, Repr

/-- `JobEventType` choices (models.py). -/
inductive JobEventType where
  | SUBMITTED | LEASED | PROGRESS_UPDATED | RETRY_SCHEDULED
  | THROTTLED | FAILED | MOVED_TO_DLQ | DONE
deriving DecidableEq, Repr

/-- Metadata values appearing in event dicts.  An `isoformat()` timestamp is
carried as its `Nat` value. -/
inductive MetaVal where
  | MStr : String → MetaVal
  | MNat : Nat → MetaVal
  | MBool : Bool → MetaVal
  | MNull : MetaVal
deriving DecidableEq, Repr

/-- A Python `Optional[str]` rendered into event metadata. -/
def MetaVal.ofOptStr : Option String → MetaVal
  | some s => .MStr s
  | none => .MNull

/-- One entry of the `events` JSON list: `{type, timestamp, metadata?}`. -/
structure JobEvent where
  type : JobEventType
  timestamp : Nat
  metadata : List (String × MetaVal)
deriving DecidableEq, Repr

/-- Numeric statistics produced by `_compute_numeric_stats`; Python float
arithmetic is modelled by exact rationals. -/
structure NumericStats where
  field : String
  sum : Rat
  avg : Rat
  min : Rat
  max : Rat
deriving DecidableEq

/-- The output dict built by `build_output_result` /
`views._build_output_result`. -/
structure OutputSummary where
  totalProcessed : Nat
  totalValid : Nat
  totalInvalid : Nat
  duplicatesRemoved : Nat
  nullsDropped : Nat
  numericStats : Option NumericStats
  outputData : Option (List Row)

/-- The `Job` model row (models.py `class Job`). -/
structure Job where
  id : Nat
  tenant : Nat
  label : String
  status : JobStatus
  stage : JobStage
  progress : Nat
  processed_rows : Nat
  total_rows : Nat
  attempts : Nat
  max_attempts : Nat
  locked_by : Option String
  lease_until : Option Nat
  next_retry_at : Option Nat
  next_run_at : Option Nat
  throttle_count : Nat
  failure_reason : Option String
  idempotency_key : Option String
  input_payload : Payload
  output_result : Option OutputSummary
  events : List JobEvent
  created_at : Nat
  updated_at : Nat
  last_ran_at : Option Nat

/-- `Job.add_event`: `self.events = [*self.events, event]`; metadata key kept
only when truthy (`if metadata:`). -/
def Job.add_event (j : Job) (now : Nat) (ty : JobEventType)
    (metadata : List (String × MetaVal) := []) : Job :=
  { j with events := j.events ++ [{ type := ty, timestamp := now, metadata := metadata }] }

/-- The `JobTrigger` model row (models.py `class JobTrigger`). -/
structure JobTrigger where
  job : Option Nat
  tenant : Nat
  triggered_at : Nat
deriving DecidableEq

/-- The persistent store: the `Job` table and the `JobTrigger` table, in
insertion order. -/
structure Store where
  jobs : List Job
  triggers : List JobTrigger

/-! ## settings.py (environment defaults) -/

/-- The configuration keys read by the engine, with the defaults hard-coded in
settings.py / views.py / tasks.py. -/
structure Settings where
  JOBS_PER_MIN_LIMIT : Nat := 4
  CONCURRENT_JOBS_LIMIT : Nat := 2
  JOB_LEASE_SECONDS : Nat := 60
  JOB_RETRY_DELAY_SECONDS : Nat := 5
  JOB_THROTTLE_BACKOFF_SECONDS : Nat := 15
  JOB_PENDING_TIMEOUT_SECONDS : Nat := 10
deriving DecidableEq

def defaultSettings : Settings := {}

/-! ## exceptions.py -/

/-- The DRF exception classes distinguished by `_error_code_from_exception`. -/
inductive ApiException where
  | validationError
  | notAuthenticated
  | authenticationFailed
  | permissionDenied
  | notFound
  | other
deriving DecidableEq

/-- `_error_code_from_exception` (exceptions.py): the full error-code mapping
of the API error envelope. -/
def errorCodeFromException : ApiException → String
  | .validationError => "validation_error"
  | .notAuthenticated => "not_authenticated"
  | .authenticationFailed => "authentication_failed"
  | .permissionDenied => "permission_denied"
  | .notFound => "not_found"
  | .other => "server_error"

/-! ## processing.py (the row pipeline used by the Celery runner)

External collaborators appear as parameters:
`validateEmail` is Django's `validate_email` (inside `_is_valid_email`),
`parseFloat` is Python's `float(str)` (`None` on `ValueError`),
`jsonParse` is `json.loads` (`None` on failure). -/

namespace Processing

/-- `_normalize_field_key`: `str(value).strip().lstrip("﻿").lower()`
applied to a string. -/
def normalizeFieldKey (s : String) : String :=
  pyLower (pyLstripBom (pyStrip s))

/-- `_normalize_list` (processing.py): accepts lists, JSON-encoded list
strings, and comma-separated strings. -/
def normalizeList (jsonParse : String → Option PyVal) : PyVal → List String
  | .VNull => []
  | .VList l =>
    (l.map (fun item => pyStrip (pyStr item))).filter (fun s => s != "")
  | .VStr v =>
    let stripped := pyStrip v
    if startsWithBracket stripped && endsWithBracket stripped then
      match jsonParse stripped with
      | some (.VList parsed) =>
          (parsed.map (fun item => pyStrip (pyStr item))).filter (fun s => s != "")
      | _ => ((pySplitComma stripped).map pyStrip).filter (fun s => s != "")
    else ((pySplitComma stripped).map pyStrip).filter (fun s => s != "")
  | _ => []

/-- `_normalize_bool` (processing.py). -/
def normalizeBool (default : Bool) : PyVal → Bool
  | .VNull => default
  | .VBool b => b
  | .VNum n => n != 0
  | .VStr s =>
    let normalized := pyLower (pyStrip s)
    if normalized ∈ ["true", "1", "yes", "y", "on"] then true
    else if normalized ∈ ["false", "0", "no", "n", "off", ""] then false
    else default
  | .VList l => !l.isEmpty

/-- `config.get(key)`: a missing key is Python `None`. -/
def cfgGet (config : List (String × PyVal)) (key : String) : PyVal :=
  (config.lookup key).getD .VNull

/-- Python `a or b` on JSON values: the first truthy operand, else `b`. -/
def pyOr (a b : PyVal) : PyVal := if pyTruthy a then a else b

/-- The configuration dict produced by `_extract_config` (processing.py):
field names are normalised (trimmed, BOM-stripped, lower-cased).  A non-string
truthy `numeric_field` is carried through `str()` as `_normalize_field_key`
would apply it. -/
structure Config where
  required_fields : List String
  dedupe_on : List String
  drop_nulls : Bool
  strict_mode : Bool
  numeric_field : Option String

/-- `_extract_config` (processing.py). -/
def extractConfig (jsonParse : String → Option PyVal) (payload : Payload) : Config :=
  let config := payload.config
  let required_fields := normalizeList jsonParse
    (pyOr (cfgGet config "requiredFields") (cfgGet config "required_fields"))
  let dedupe_on := normalizeList jsonParse
    (pyOr (cfgGet config "dedupeOn") (cfgGet config "dedupe_on"))
  -- `config.get("dropNulls", config.get("drop_nulls"))`: the first key wins
  -- when present, even with a null value.
  let dropRaw := match config.lookup "dropNulls" with
    | some v => v
    | none => cfgGet config "drop_nulls"
  let strictRaw := match config.lookup "strictMode" with
    | some v => v
    | none => cfgGet config "strict_mode"
  let numericRaw := pyOr (cfgGet config "numericField") (cfgGet config "numeric_field")
  let numericNorm : PyVal := match numericRaw with
    | .VStr s => .VStr (normalizeFieldKey s)
    | v => v
  { required_fields := required_fields.map normalizeFieldKey
    dedupe_on := dedupe_on.map normalizeFieldKey
    drop_nulls := normalizeBool false dropRaw
    strict_mode := normalizeBool false strictRaw
    numeric_field := if pyTruthy numericNorm then
        some (match numericNorm with | .VStr s => s | v => pyStr v)
      else none }

/-- `_is_null` (processing.py): `None` or a blank string. -/
def isNull : PyVal → Bool
  | .VNull => true
  | .VStr s => pyStrip s == ""
  | _ => false

/-- `_get_value_case_insensitive`: exact-key hit first, then the first key
matching under `_normalize_field_key`.  Python's `None` answer (key absent or
value null) is `VNull`. -/
def getValueCI (row : Row) (field : String) : PyVal :=
  match row.lookup field with
  | some v => v
  | none =>
    match row.find? (fun kv => normalizeFieldKey kv.1 == normalizeFieldKey field) with
    | some kv => kv.2
    | none => .VNull

/-- `_row_has_field`: some key matches under `_normalize_field_key`. -/
def rowHasField (row : Row) (field : String) : Bool :=
  row.any (fun kv => normalizeFieldKey kv.1 == normalizeFieldKey field)

/-- `_is_valid_email` around the external `validate_email`. -/
def isValidEmail (validateEmail : String → Bool) : PyVal → Bool
  | .VNull => false
  | v =>
    let s := pyStrip (pyStr v)
    if s == "" then false else validateEmail s

/-- Python `float(value)` on a JSON value (`bool` is an `int` subclass);
failure is `none`. -/
def pyFloat (parseFloat : String → Option Rat) : PyVal → Option Rat
  | .VNum n => some (n : Rat)
  | .VBool b => some (if b then 1 else 0)
  | .VStr s => parseFloat s
  | _ => none

/-- `_is_valid_age`: parses as float, requires `0 < age < 100`. -/
def isValidAge (parseFloat : String → Option Rat) : PyVal → Bool
  | .VNull => false
  | v =>
    match pyFloat parseFloat v with
    | some age => decide (0 < age) && decide (age < 100)
    | none => false

/-- `_is_valid_name`: stripped length strictly above 2. -/
def isValidName : PyVal → Bool
  | .VNull => false
  | v => pyLen (pyStrip (pyStr v)) > 2

/-- `_passes_basic_validation` (processing.py). -/
def passesBasicValidation (validateEmail : String → Bool)
    (parseFloat : String → Option Rat) (row : Row) : Bool :=
  let emailValue := getValueCI row "email"
  if !(isNullValue emailValue) && !(isValidEmail validateEmail emailValue) then false
  else if rowHasField row "email" &&
      !(isValidEmail validateEmail (getValueCI row "email")) then false
  else if rowHasField row "age" &&
      !(isValidAge parseFloat (getValueCI row "age")) then false
  else if rowHasField row "name" &&
      !(isValidName (getValueCI row "name")) then false
  else true
where
  /-- `value is None` on a lookup result. -/
  isNullValue : PyVal → Bool
    | .VNull => true
    | _ => false

/-- The accumulator of the `_process_rows` loop. -/
structure ProcState where
  seen : List (List String)
  valid_rows : List Row
  invalid_rows : Nat
  nulls_dropped : Nat
  duplicates_removed : Nat

def initProcState : ProcState :=
  { seen := [], valid_rows := [], invalid_rows := 0,
    nulls_dropped := 0, duplicates_removed := 0 }

/-- The dedupe key of a row:
`tuple(str(_get_value_case_insensitive(row, field) or "") for field in dedupe_on)`. -/
def dedupeKey (dedupe_on : List String) (row : Row) : List String :=
  dedupe_on.map (fun f =>
    let v := getValueCI row f
    if pyTruthy v then pyStr v else "")

/-- One iteration of the `_process_rows` loop (processing.py), with each
`continue` branch in source order. -/
def processItem (validateEmail : String → Bool) (parseFloat : String → Option Rat)
    (cfg : Config) (st : ProcState) (item : RowItem) : ProcState :=
  match item with
  | .ROther _ => { st with invalid_rows := st.invalid_rows + 1 }
  | .RDict row =>
    let rowKeysLower := row.map (fun kv => normalizeFieldKey kv.1)
    if cfg.required_fields != [] &&
        (cfg.required_fields.filter (fun f => !(rowKeysLower.contains (pyLower f)))) != [] then
      { st with invalid_rows := st.invalid_rows + 1 }
    else if cfg.required_fields != [] &&
        (cfg.required_fields.filter (fun f => isNull (getValueCI row f))) != [] then
      { st with invalid_rows := st.invalid_rows + 1,
                nulls_dropped := st.nulls_dropped + (if cfg.drop_nulls then 1 else 0) }
    else if cfg.strict_mode && row.any (fun kv => isNull kv.2) then
      { st with invalid_rows := st.invalid_rows + 1 }
    else if cfg.drop_nulls && cfg.required_fields == [] &&
        row.any (fun kv => isNull kv.2) then
      { st with invalid_rows := st.invalid_rows + 1,
                nulls_dropped := st.nulls_dropped + 1 }
    else if !(passesBasicValidation validateEmail parseFloat row) then
      { st with invalid_rows := st.invalid_rows + 1 }
    else if cfg.dedupe_on != [] && st.seen.contains (dedupeKey cfg.dedupe_on row) then
      { st with duplicates_removed := st.duplicates_removed + 1 }
    else
      { st with valid_rows := st.valid_rows ++ [row],
                seen := if cfg.dedupe_on != [] then
                    st.seen ++ [dedupeKey cfg.dedupe_on row]
                  else st.seen }

/-- `_process_rows` (processing.py). -/
def processRows (validateEmail : String → Bool) (parseFloat : String → Option Rat)
    (rows : List RowItem) (cfg : Config) : ProcState :=
  rows.foldl (processItem validateEmail parseFloat cfg) initProcState

/-- `_compute_numeric_stats`: the numeric values collected from the rows. -/
def numericValues (parseFloat : String → Option Rat) (rows : List Row)
    (f : String) : List Rat :=
  rows.filterMap (fun row =>
    match getValueCI row f with
    | .VNum n => some (n : Rat)
    | .VBool b => some (if b then 1 else 0)
    | v => pyFloat parseFloat v)

/-- `_compute_numeric_stats` (processing.py). -/
def computeNumericStats (parseFloat : String → Option Rat) (rows : List Row)
    (f : String) : Option NumericStats :=
  match numericValues parseFloat rows f with
  | [] => none
  | v :: vs =>
    let total := (v :: vs).sum
    some { field := f, sum := total, avg := total / ((v :: vs).length : Rat),
           min := vs.foldl Min.min v, max := vs.foldl Max.max v }

/-- `build_output_result` (processing.py). -/
def buildOutputResult (validateEmail : String → Bool)
    (parseFloat : String → Option Rat) (jsonParse : String → Option PyVal)
    (payload : Payload) : OutputSummary :=
  let rows := payload.rows
  let cfg := extractConfig jsonParse payload
  let total_processed := rows.length
  let processed := processRows validateEmail parseFloat rows cfg
  let numeric_stats := match cfg.numeric_field with
    | some f => computeNumericStats parseFloat processed.valid_rows f
    | none => none
  { totalProcessed := total_processed
    totalValid := processed.valid_rows.length
    totalInvalid := processed.invalid_rows
    duplicatesRemoved := processed.duplicates_removed
    nullsDropped := processed.nulls_dropped
    numericStats := numeric_stats
    outputData := if processed.valid_rows.isEmpty then none
      else some (processed.valid_rows.take 50) }

end Processing

/-! ## views.py

The HTTP layer.  `JobViewSet` operations are embedded as pure functions on
`Job` / `Store`; serializer-validated inputs are the function arguments.
`random.randint(5, 12)` inside `_advance_job` appears as the parameter
`inc`; for whole-queryset passes each job's draw is `incOf job.id`. -/

namespace Views

/-- `_normalize_list` (views.py): no JSON decoding, unlike processing.py. -/
def normalizeList : PyVal → List String
  | .VNull => []
  | .VList l =>
    (l.map (fun item => pyStrip (pyStr item))).filter (fun s => s != "")
  | .VStr v => ((pySplitComma v).map pyStrip).filter (fun s => s != "")
  | _ => []

/-- The configuration dict produced by `_extract_config` (views.py): field
names are kept verbatim (no trimming/lower-casing).  A non-string truthy
`numeric_field` is kept raw. -/
structure Config where
  required_fields : List String
  dedupe_on : List String
  drop_nulls : Bool
  strict_mode : Bool
  numeric_field : Option PyVal

/-- `_extract_config` (views.py). -/
def extractConfig (payload : Payload) : Config :=
  let config := payload.config
  let required_fields := normalizeList
    (Processing.pyOr (Processing.cfgGet config "requiredFields")
      (Processing.cfgGet config "required_fields"))
  let dedupe_on := normalizeList
    (Processing.pyOr (Processing.cfgGet config "dedupeOn")
      (Processing.cfgGet config "dedupe_on"))
  -- `drop_nulls = config.get("dropNulls"); if drop_nulls is None:
  --    drop_nulls = config.get("drop_nulls", False)`
  let dropRaw := match Processing.cfgGet config "dropNulls" with
    | .VNull => (config.lookup "drop_nulls").getD (.VBool false)
    | v => v
  let strictRaw := match Processing.cfgGet config "strictMode" with
    | .VNull => (config.lookup "strict_mode").getD (.VBool false)
    | v => v
  let numericRaw := Processing.pyOr (Processing.cfgGet config "numericField")
    (Processing.cfgGet config "numeric_field")
  { required_fields := required_fields
    dedupe_on := dedupe_on
    drop_nulls := pyTruthy dropRaw
    strict_mode := pyTruthy strictRaw
    numeric_field := if pyTruthy numericRaw then some numericRaw else none }

/-- `_is_null` (views.py) — textually identical to processing.py's. -/
def isNull : PyVal → Bool := Processing.isNull

/-- The dedupe key of a row (views.py):
`tuple(str(row.get(field, "")) for field in dedupe_on)` — exact-key lookup,
`str()` of the present value (`None` renders as `"None"`). -/
def dedupeKey (dedupe_on : List String) (row : Row) : List String :=
  dedupe_on.map (fun f =>
    match row.lookup f with
    | some v => pyStr v
    | none => "")

/-- One iteration of the `_process_rows` loop (views.py): exact-key required
checks, strict mode rejects extra fields, no per-field basic validation. -/
def processItem (cfg : Config) (st : Processing.ProcState) (item : RowItem) :
    Processing.ProcState :=
  match item with
  | .ROther _ => { st with invalid_rows := st.invalid_rows + 1 }
  | .RDict row =>
    if cfg.required_fields != [] &&
        (cfg.required_fields.filter (fun f => (row.lookup f).isNone)) != [] then
      { st with invalid_rows := st.invalid_rows + 1 }
    else if cfg.required_fields != [] &&
        (cfg.required_fields.filter
          (fun f => isNull ((row.lookup f).getD .VNull))) != [] then
      { st with invalid_rows := st.invalid_rows + 1,
                nulls_dropped := st.nulls_dropped + (if cfg.drop_nulls then 1 else 0) }
    else if cfg.strict_mode && cfg.required_fields != [] &&
        row.any (fun kv => !(cfg.required_fields.contains kv.1)) then
      { st with invalid_rows := st.invalid_rows + 1 }
    else if cfg.drop_nulls && row.any (fun kv => isNull kv.2) then
      { st with invalid_rows := st.invalid_rows + 1,
                nulls_dropped := st.nulls_dropped + 1 }
    else if cfg.dedupe_on != [] && st.seen.contains (dedupeKey cfg.dedupe_on row) then
      { st with duplicates_removed := st.duplicates_removed + 1 }
    else
      { st with valid_rows := st.valid_rows ++ [row],
                seen := if cfg.dedupe_on != [] then
                    st.seen ++ [dedupeKey cfg.dedupe_on row]
                  else st.seen }

/-- `_process_rows` (views.py). -/
def processRows (rows : List RowItem) (cfg : Config) : Processing.ProcState :=
  rows.foldl (processItem cfg) Processing.initProcState

/-- `_compute_numeric_stats` (views.py): exact-key `row.get`; a non-string
field key never matches. -/
def computeNumericStats (parseFloat : String → Option Rat) (rows : List Row)
    (f : PyVal) : Option NumericStats :=
  let vals := rows.filterMap (fun row =>
    let value : PyVal := match f with
      | .VStr s => (row.lookup s).getD .VNull
      | _ => .VNull
    match value with
    | .VNum n => some ((n : Rat))
    | .VBool b => some (if b then (1 : Rat) else 0)
    | v => Processing.pyFloat parseFloat v)
  match vals with
  | [] => none
  | v :: vs =>
    let total := (v :: vs).sum
    some { field := pyStr f, sum := total, avg := total / ((v :: vs).length : Rat),
           min := vs.foldl Min.min v, max := vs.foldl Max.max v }

/-- `_build_output_result` (views.py). -/
def buildOutputResult (parseFloat : String → Option Rat) (payload : Payload) :
    OutputSummary :=
  let rows := payload.rows
  let cfg := extractConfig payload
  let processed := processRows rows cfg
  let numeric_stats := match cfg.numeric_field with
    | some f => computeNumericStats parseFloat processed.valid_rows f
    | none => none
  { totalProcessed := rows.length
    totalValid := processed.valid_rows.length
    totalInvalid := processed.invalid_rows
    duplicatesRemoved := processed.duplicates_removed
    nullsDropped := processed.nulls_dropped
    numericStats := numeric_stats
    outputData := if processed.valid_rows.isEmpty then none
      else some (processed.valid_rows.take 50) }

/-- Python `a or b` for an optional string (`None` and `""` are falsy). -/
def strOr (a : Option String) (b : String) : String :=
  match a with
  | some s => if s == "" then b else s
  | none => b

/-- `_advance_job` (views.py): the auto-advance mutation applied to a job on
each GET when `JOB_AUTO_ADVANCE` is enabled.  `delay` is
`AUTO_ADVANCE_DELAY_SECONDS` (default 8), `inc` the `random.randint(5, 12)`
draw.  `int(total_rows * x)` is modelled by exact integer division. -/
def advanceJob (parseFloat : String → Option Rat) (delay inc now : Nat)
    (j : Job) : Job :=
  if j.status = .PENDING then
    if j.created_at + delay ≤ now then
      let worker := strOr j.locked_by ("worker-" ++ toString j.tenant)
      let j1 := { j with
        status := .RUNNING, stage := .PROCESSING,
        progress := max j.progress 5,
        processed_rows := max j.processed_rows (j.total_rows * 5 / 100),
        attempts := max j.attempts 1,
        locked_by := some worker,
        lease_until := some (now + 120) }
      let j2 := j1.add_event now .LEASED [("worker", .MStr worker)]
      let j3 := j2.add_event now .PROGRESS_UPDATED [("progress", .MNat j1.progress)]
      { j3 with updated_at := now }
    else j
  else if j.status = .RUNNING then
    let new_progress := min (j.progress + inc) 100
    let j1 := { j with
      progress := new_progress,
      processed_rows := if j.total_rows ≠ 0 then j.total_rows * new_progress / 100 else 0 }
    if new_progress ≥ 100 then
      let j2 := { j1 with
        status := .DONE, stage := .DONE, progress := 100,
        processed_rows := j1.total_rows,
        locked_by := none, lease_until := none,
        output_result := some (buildOutputResult parseFloat j1.input_payload) }
      { j2.add_event now .DONE with updated_at := now }
    else
      let j2 := { j1 with
        stage := if new_progress > 75 then JobStage.FINALIZING
          else if j1.stage = JobStage.VALIDATING then JobStage.PROCESSING
          else j1.stage }
      { j2.add_event now .PROGRESS_UPDATED [("progress", .MNat j2.progress)] with
          updated_at := now }
  else j

/-- `JobViewSet.retrieve`: the stored job after a GET of a single job. -/
def retrieveView (parseFloat : String → Option Rat) (autoAdvance : Bool)
    (delay inc now : Nat) (j : Job) : Job :=
  if autoAdvance then advanceJob parseFloat delay inc now j else j

/-- `JobViewSet.list`: the job table after a GET of the tenant's job list
(each job of the tenant is advanced when `AUTO_ADVANCE`). -/
def listViewStore (parseFloat : String → Option Rat) (autoAdvance : Bool)
    (delay : Nat) (incOf : Nat → Nat) (now : Nat) (tenant : Nat)
    (jobs : List Job) : List Job :=
  jobs.map (fun j =>
    if autoAdvance && j.tenant == tenant then
      advanceJob parseFloat delay (incOf j.id) now j
    else j)

/-- The data dict returned by `JobViewSet.stats`. -/
structure StatsData where
  pending : Nat
  running : Nat
  done : Nat
  failed : Nat
  dlq : Nat
  jobsPerMin : Nat
  jobsPerMinLimit : Nat
  concurrentJobs : Nat
  concurrentJobsLimit : Nat
deriving DecidableEq, Repr

/-- `JobViewSet.stats` counting, over the tenant's jobs: note `jobsPerMin`
counts DONE jobs touched in the last minute, not trigger rows. -/
def statsData (s : Settings) (now : Nat) (tenant : Nat) (jobs : List Job) :
    StatsData :=
  let qs := jobs.filter (fun j => j.tenant == tenant)
  { pending := (qs.filter (fun j => j.status == .PENDING)).length
    running := (qs.filter (fun j => j.status == .RUNNING)).length
    done := (qs.filter (fun j => j.status == .DONE)).length
    failed := (qs.filter (fun j => j.status == .FAILED)).length
    dlq := (qs.filter (fun j => j.status == .DLQ)).length
    jobsPerMin := (qs.filter
      (fun j => j.status == .DONE && now ≤ j.updated_at + 60)).length
    jobsPerMinLimit := s.JOBS_PER_MIN_LIMIT
    concurrentJobs := (qs.filter (fun j => j.status == .RUNNING)).length
    concurrentJobsLimit := s.CONCURRENT_JOBS_LIMIT }

/-- `JobViewSet.stats`: the job table and the response data after a GET. -/
def statsView (parseFloat : String → Option Rat) (autoAdvance : Bool)
    (delay : Nat) (incOf : Nat → Nat) (now : Nat) (s : Settings) (tenant : Nat)
    (jobs : List Job) : List Job × StatsData :=
  let jobs1 := listViewStore parseFloat autoAdvance delay incOf now tenant jobs
  (jobs1, statsData s now tenant jobs1)

/-- Serializer-validated submit payload (`JobCreateSerializer`), after CSV
decoding: the engine always receives structured rows. -/
structure CreateData where
  label : String
  payload : Payload
  max_attempts : Option Nat
  idempotency_key : Option String

/-- `idempotency_key = data.get("idempotency_key")
or payload.get("config", {}).get("idempotencyKey")
or payload.get("config", {}).get("idempotency_key")` — Python truthy `or`:
a blank key falls through; a non-string config value is coerced by the text
column. -/
def resolveIdempotencyKey (data : CreateData) : Option String :=
  let fromData : PyVal := match data.idempotency_key with
    | some s => .VStr s
    | none => .VNull
  let k := Processing.pyOr
    (Processing.pyOr fromData (Processing.cfgGet data.payload.config "idempotencyKey"))
    (Processing.cfgGet data.payload.config "idempotency_key")
  if pyTruthy k then some (pyStr k) else none

/-- The idempotency lookup filter of `JobViewSet.create`:
`Job.objects.filter(tenant=request.user, idempotency_key=idempotency_key)` —
note: no restriction to non-terminal statuses. -/
def idemMatch (tenant : Nat) (k : String) (j : Job) : Bool :=
  j.tenant == tenant && j.idempotency_key == some k

/-- The response of `JobViewSet.create`: 200 with an idempotent match, or 201
with a freshly inserted job. -/
inductive CreateResult where
  | matched : Job → CreateResult
  | created : Job → CreateResult

/-- The row built by `Job.objects.create(...)` in `JobViewSet.create`, with
its `SUBMITTED` event appended and saved.
`max_attempts = data.get("max_attempts") or 3`. -/
def freshJob (now newId tenant : Nat) (data : CreateData) (key : Option String) :
    Job :=
  let total_rows := data.payload.rows.length
  let max_attempts := match data.max_attempts with
    | some m => if m ≠ 0 then m else 3
    | none => 3
  let job : Job := {
    id := newId, tenant := tenant, label := data.label,
    status := .PENDING, stage := .VALIDATING,
    progress := 0, processed_rows := 0, total_rows := total_rows,
    attempts := 0, max_attempts := max_attempts,
    locked_by := none, lease_until := none,
    next_retry_at := none, next_run_at := none,
    throttle_count := 0, failure_reason := none,
    idempotency_key := key,
    input_payload := data.payload, output_result := none,
    events := [], created_at := now, updated_at := now, last_ran_at := none }
  let job := job.add_event now .SUBMITTED
  { job with updated_at := now }

/-- `JobViewSet.create` (views.py, lines 335–387), after serializer
validation — note: the idempotency lookup does not restrict to non-terminal
jobs, and no rate-limit check or `JobTrigger` insert is performed.  `newId` is
the fresh `uuid4`. -/
def createView (now newId tenant : Nat) (data : CreateData) (store : Store) :
    Store × CreateResult :=
  let key := resolveIdempotencyKey data
  let existing : Option Job := match key with
    | some k => store.jobs.find? (idemMatch tenant k)
    | none => none
  match existing with
  | some job => (store, .matched job)
  | none =>
    let job := freshJob now newId tenant data key
    ({ store with jobs := store.jobs ++ [job] }, .created job)

/-- `JobViewSet.retry` (views.py): guard {FAILED, DONE}; `none` is the
`ValidationError` response. -/
def retryView (now : Nat) (j : Job) : Option Job :=
  if j.status = .FAILED ∨ j.status = .DONE then
    let j1 := { j with
      status := JobStatus.PENDING, stage := JobStage.VALIDATING,
      progress := 0, processed_rows := 0, attempts := 0,
      failure_reason := none, next_retry_at := none,
      locked_by := none, lease_until := none, output_result := none }
    some { j1.add_event now .SUBMITTED [("retried", .MBool true)] with
             updated_at := now }
  else none

/-- `JobViewSet.replay` (views.py): guard {DLQ}; `none` is the
`ValidationError` response. -/
def replayView (now : Nat) (j : Job) : Option Job :=
  if j.status = .DLQ then
    let j1 := { j with
      status := JobStatus.PENDING, stage := JobStage.VALIDATING,
      progress := 0, processed_rows := 0, attempts := 0,
      failure_reason := none, next_retry_at := none,
      locked_by := none, lease_until := none }
    some { j1.add_event now .SUBMITTED [("replayed", .MBool true)] with
             updated_at := now }
  else none

/-- The fold step selecting the row with the smallest `created_at`, keeping
the earlier row on ties (a stable `order_by("created_at").first()`). -/
def pickOlder (acc : Option Job) (j : Job) : Option Job :=
  match acc with
  | none => some j
  | some b => if j.created_at < b.created_at then some j else some b

/-- The tenant's oldest PENDING job:
`filter(tenant, status=PENDING).order_by("created_at").first()` — first in
table order among the minimal `created_at`. -/
def oldestPending (jobs : List Job) (tenant : Nat) : Option Job :=
  (jobs.filter (fun j => j.tenant == tenant && j.status == .PENDING)).foldl
    pickOlder none

/-- The lease-accept mutation of `JobViewSet.lease`: applied unconditionally
to the selected job — no concurrency check, no attempts guard, and
`attempts = max(attempts, 1)`. -/
def leaseMutation (worker : String) (lease_seconds now : Nat) (j : Job) : Job :=
  let j1 := { j with
    status := JobStatus.RUNNING, stage := JobStage.PROCESSING,
    progress := max j.progress 5,
    processed_rows := max j.processed_rows (j.total_rows * 5 / 100),
    attempts := max j.attempts 1,
    locked_by := some worker,
    lease_until := some (now + lease_seconds) }
  { j1.add_event now .LEASED [("worker", .MStr worker)] with updated_at := now }

/-- The response of `JobViewSet.lease`: a leased job, or the
`"No pending jobs available."` sentinel. -/
inductive LeaseResult where
  | noJobs
  | leased : Job → LeaseResult

/-- `JobViewSet.lease` (views.py, lines 453–478).  `lease_seconds` defaults to
120 when the worker omits it. -/
def leaseView (worker : String) (lease_seconds now tenant : Nat)
    (jobs : List Job) : List Job × LeaseResult :=
  match oldestPending jobs tenant with
  | none => (jobs, .noJobs)
  | some job =>
    let job1 := leaseMutation worker lease_seconds now job
    (jobs.map (fun k => if k.id == job.id then job1 else k), .leased job1)

/-- `JobViewSet.progress` (views.py): `none` is the serializer rejection
(`progress` outside 0..100); otherwise the update applies to the job in any
status, overwrites `progress` (decreases allowed), and leaves `lease_until`
untouched. -/
def progressView (p pr : Nat) (stage : Option JobStage) (now : Nat) (j : Job) :
    Option Job :=
  if p ≤ 100 then
    let j1 := { j with
      progress := p, processed_rows := pr,
      stage := match stage with | some st => st | none => j.stage }
    some { j1.add_event now .PROGRESS_UPDATED [("progress", .MNat p)] with
             updated_at := now }
  else none

/-- `JobViewSet.complete` (views.py): no status guard; an omitted or empty
`output_result` triggers a synchronous `_build_output_result`. -/
def completeView (parseFloat : String → Option Rat)
    (output : Option OutputSummary) (now : Nat) (j : Job) : Job :=
  let j1 := { j with
    status := JobStatus.DONE, stage := JobStage.DONE,
    progress := 100, processed_rows := j.total_rows,
    locked_by := none, lease_until := none,
    output_result := some (match output with
      | some o => o
      | none => buildOutputResult parseFloat j.input_payload) }
  { j1.add_event now .DONE with updated_at := now }

/-- `JobViewSet.fail` (views.py): no status guard; increments `attempts`, then
DLQ when `attempts ≥ max_attempts` else FAILED with
`next_retry_at = now + retry_in` (default 300). -/
def failView (reason : String) (retry_in : Option Nat) (now : Nat) (j : Job) :
    Job :=
  let j1 := { j with
    attempts := j.attempts + 1,
    failure_reason := some reason,
    locked_by := none, lease_until := none }
  if j1.attempts ≥ j1.max_attempts then
    let j2 := j1.add_event now .FAILED
      [("reason", .MStr reason), ("attempt", .MNat j1.attempts)]
    let j3 := j2.add_event now .MOVED_TO_DLQ [("reason", .MStr reason)]
    { j3 with status := JobStatus.DLQ, updated_at := now }
  else
    let retry_at := now + (match retry_in with | some r => r | none => 300)
    let j2 := { j1 with status := JobStatus.FAILED, next_retry_at := some retry_at }
    let j3 := j2.add_event now .FAILED
      [("reason", .MStr reason), ("attempt", .MNat j1.attempts)]
    let j4 := j3.add_event now .RETRY_SCHEDULED [("nextRetryAt", .MNat retry_at)]
    { j4 with updated_at := now }

end Views

/-! ## tasks.py (Celery runner `proc` and the periodic `reconcile`)

Each function models one short transaction of tasks.py.  `_save_with_retry`
behaves as `job.save()` on success; retry-on-lock plumbing has no effect on
the resulting row. -/

namespace Tasks

/-- `_throttle_backoff_seconds`: `min(base * (1 + throttle_count), 300)`. -/
def throttleBackoffSeconds (s : Settings) (throttle_count : Nat) : Nat :=
  min (s.JOB_THROTTLE_BACKOFF_SECONDS * (1 + throttle_count)) 300

/-- The concurrency query of `proc`: the tenant's RUNNING jobs other than the
job itself. -/
def runningOthers (jobs : List Job) (j : Job) : Nat :=
  (jobs.filter (fun k =>
    k.tenant == j.tenant && k.status == JobStatus.RUNNING && k.id != j.id)).length

/-- `job.next_run_at and job.next_run_at > now`: a THROTTLED job not yet due. -/
def notYetDue (now : Nat) : Option Nat → Bool
  | some t => decide (now < t)
  | none => false

/-- A nullable deadline that is null or already due (`isnull ∨ ≤ now`). -/
def dueOrNull (now : Nat) : Option Nat → Bool
  | some t => decide (t ≤ now)
  | none => true

/-- `lease_until is not null and lease_until < now`. -/
def leaseIsExpired (now : Nat) : Option Nat → Bool
  | some t => decide (t < now)
  | none => false

/-- `_mark_failed` (tasks.py): FAILED, stage VALIDATING, reason, lease
cleared, `next_retry_at = now + retry_in`, `FAILED` event with the current
attempt count. -/
def markFailed (reason : String) (now retry_in : Nat) (j : Job) : Job :=
  let j1 := { j with
    status := JobStatus.FAILED, stage := JobStage.VALIDATING,
    failure_reason := some reason,
    locked_by := none, lease_until := none,
    next_retry_at := some (now + retry_in) }
  j1.add_event now .FAILED [("reason", .MStr reason), ("attempt", .MNat j.attempts)]

/-- The first transaction of `proc` (tasks.py, lines 113–168): status guard,
THROTTLED readiness guard, attempts-exhausted DLQ, tenant concurrency check
(skipped entirely when `CONCURRENT_JOBS_LIMIT` is falsy), then throttle or
lease-accept.  Every branch of the source saves the row. -/
def procDispatch (s : Settings) (now : Nat) (jobs : List Job) (j : Job) : Job :=
  if j.status ≠ .PENDING ∧ j.status ≠ .THROTTLED then
    { j with updated_at := now }
  else if j.status = .THROTTLED ∧ notYetDue now j.next_run_at then
    { j with updated_at := now }
  else if j.attempts ≥ j.max_attempts then
    let j1 := j.add_event now .MOVED_TO_DLQ
      [("reason", MetaVal.ofOptStr j.failure_reason)]
    { j1 with status := JobStatus.DLQ, updated_at := now }
  else if s.CONCURRENT_JOBS_LIMIT ≠ 0 ∧
      runningOthers jobs j ≥ s.CONCURRENT_JOBS_LIMIT then
    let backoff := throttleBackoffSeconds s j.throttle_count
    let j1 := { j with
      status := JobStatus.THROTTLED,
      next_run_at := some (now + backoff),
      throttle_count := j.throttle_count + 1,
      locked_by := none, lease_until := none }
    let j2 := j1.add_event now .THROTTLED
      [("next_run_at", .MNat (now + backoff)),
       ("throttle_count", .MNat j1.throttle_count)]
    { j2 with updated_at := now }
  else
    let j1 := { j with
      status := JobStatus.RUNNING, stage := JobStage.PROCESSING,
      progress := max j.progress 5,
      processed_rows := max j.processed_rows
        (if j.total_rows ≠ 0 then j.total_rows * 5 / 100 else 0),
      locked_by := some "celery-worker",
      last_ran_at := some now,
      lease_until := some (now + s.JOB_LEASE_SECONDS),
      next_run_at := none }
    let j2 := j1.add_event now .LEASED [("worker", .MStr "celery-worker")]
    let j3 := j2.add_event now .PROGRESS_UPDATED [("progress", .MNat j1.progress)]
    { j3 with updated_at := now }

/-- The completion transaction of `proc` (tasks.py, lines 218–231): aborts
without writing when the job is no longer RUNNING (the re-enqueue/cancel
guard); otherwise records DONE with the pipeline output. -/
def procCompleteTxn (output : OutputSummary) (now : Nat) (j : Job) : Job :=
  if j.status ≠ .RUNNING then j
  else
    let j1 := { j with
      status := JobStatus.DONE, stage := JobStage.DONE,
      progress := 100, processed_rows := j.total_rows,
      output_result := some output,
      locked_by := none, lease_until := none, next_run_at := none }
    { j1.add_event now .DONE with updated_at := now }

/-- The failure transaction of `proc` (tasks.py, lines 233–243): increments
`attempts`, applies `_mark_failed`, escalates to DLQ when the budget is
exhausted. -/
def procFailTxn (s : Settings) (reason : String) (now : Nat) (j : Job) : Job :=
  let j1 := { j with attempts := j.attempts + 1 }
  let j2 := markFailed reason now s.JOB_RETRY_DELAY_SECONDS j1
  let j3 := if j2.attempts ≥ j2.max_attempts then
      let j2e := j2.add_event now .MOVED_TO_DLQ
        [("reason", MetaVal.ofOptStr j2.failure_reason)]
      { j2e with status := JobStatus.DLQ }
    else j2
  { j3 with updated_at := now }

/-- Category 1 of `reconcile` (tasks.py, lines 252–276) applied to one job:
PENDING past `updated_at < now - PENDING_TIMEOUT` (written additively) gets
the fail logic with reason "Pending timeout". -/
def reconcilePendingTimeout (s : Settings) (now : Nat) (j : Job) : Job :=
  if j.status = .PENDING ∧ j.updated_at + s.JOB_PENDING_TIMEOUT_SECONDS < now then
    let j1 := { j with attempts := j.attempts + 1 }
    let j2 := markFailed "Pending timeout" now s.JOB_RETRY_DELAY_SECONDS j1
    let j3 := if j2.attempts ≥ j2.max_attempts then
        let j2e := j2.add_event now .MOVED_TO_DLQ
          [("reason", MetaVal.ofOptStr j2.failure_reason)]
        { j2e with status := JobStatus.DLQ }
      else j2
    { j3 with updated_at := now }
  else j

/-- Category 2 of `reconcile` (tasks.py, lines 278–296) applied to one job:
a THROTTLED job whose `next_run_at` is null or due is reset to PENDING and
re-enqueued.  The source appends no event here. -/
def reconcileThrottledReady (now : Nat) (j : Job) : Job :=
  if j.status = .THROTTLED ∧ dueOrNull now j.next_run_at then
    { j with status := JobStatus.PENDING, next_run_at := none, updated_at := now }
  else j

/-- Category 3 of `reconcile` (tasks.py, lines 298–358) applied to one job:
a FAILED job whose `next_retry_at` is null or due goes to DLQ when attempts
are exhausted, else back to PENDING (attempts preserved) with a
`RETRY_SCHEDULED` event. -/
def reconcileFailedReady (now : Nat) (j : Job) : Job :=
  if j.status = .FAILED ∧ dueOrNull now j.next_retry_at then
    if j.attempts ≥ j.max_attempts then
      let j1 := { j with status := JobStatus.DLQ }
      let j2 := j1.add_event now .MOVED_TO_DLQ
        [("reason", MetaVal.ofOptStr j1.failure_reason)]
      { j2 with next_retry_at := none, next_run_at := none, updated_at := now }
    else
      let j1 := { j with
        status := JobStatus.PENDING, stage := JobStage.VALIDATING,
        progress := 0, processed_rows := 0,
        next_retry_at := none, next_run_at := none,
        locked_by := none, lease_until := none }
      let j2 := j1.add_event now .RETRY_SCHEDULED
        [("reason", .MStr "Auto retry"), ("queued_at", .MNat now)]
      { j2 with updated_at := now }
  else j

/-- Category 4 of `reconcile` (tasks.py, lines 360–381) applied to one job:
a RUNNING job with `lease_until < now` gets the fail logic with reason
"Worker lease expired". -/
def reconcileLeaseExpired (s : Settings) (now : Nat) (j : Job) : Job :=
  if j.status = .RUNNING ∧ leaseIsExpired now j.lease_until then
    let j1 := { j with attempts := j.attempts + 1 }
    let j2 := markFailed "Worker lease expired" now s.JOB_RETRY_DELAY_SECONDS j1
    let j3 := if j2.attempts ≥ j2.max_attempts then
        let j2e := j2.add_event now .MOVED_TO_DLQ
          [("reason", MetaVal.ofOptStr j2.failure_reason)]
        { j2e with status := JobStatus.DLQ }
      else j2
    { j3 with updated_at := now }
  else j

/-- One full `reconcile` pass as it acts on a single job: the four categories
in source order (each category's queryset is evaluated when its loop starts,
so a row rewritten by an earlier category is seen by the later ones). -/
def reconcileJob (s : Settings) (now : Nat) (j : Job) : Job :=
  reconcileLeaseExpired s now
    (reconcileFailedReady now
      (reconcileThrottledReady now
        (reconcilePendingTimeout s now j)))

end Tasks

/-! ## Concrete fixtures for witnesses and counterexamples -/

/-- A trivial external float parser (every string fails to parse). -/
def noFloat : String → Option Rat := fun _ => none

/-- A trivial external JSON parser (every string fails to parse). -/
def noJson : String → Option PyVal := fun _ => none

/-- A trivial external email validator (rejects everything). -/
def noEmail : String → Bool := fun _ => false

/-- An empty `input_payload`. -/
def emptyPayload : Payload := { rows := [], config := [], csv_meta := false }

/-- A freshly-submitted job template used by the concrete fixtures. -/
def baseJob : Job :=
  { id := 1, tenant := 1, label := "A",
    status := .PENDING, stage := .VALIDATING,
    progress := 0, processed_rows := 0, total_rows := 0,
    attempts := 0, max_attempts := 3,
    locked_by := none, lease_until := none,
    next_retry_at := none, next_run_at := none,
    throttle_count := 0, failure_reason := none, idempotency_key := none,
    input_payload := emptyPayload, output_result := none,
    events := [], created_at := 0, updated_at := 0, last_ran_at := none }

/-- A job parked in the dead-letter queue. -/
def dlqJob : Job := { baseJob with id := 2, status := .DLQ, attempts := 3 }

/-- A completed job. -/
def doneJob : Job :=
  { baseJob with id := 3, status := .DONE, stage := .DONE, progress := 100 }

/-- Modelled from the spec: the per-tenant rolling-minute trigger count the
rate limiter is specified to consult (`JobTrigger` rows with
`triggered_at ≥ now - 60s`, written additively).  No function of the source
computes this: views.py never reads or writes `JobTrigger` and has no
rate-limit branch, so this definition exists only to state the divergence. -/
def specRateLimitWindowCount (triggers : List JobTrigger) (tenant now : Nat) :
    Nat :=
  (triggers.filter (fun t => t.tenant == tenant && now ≤ t.triggered_at + 60)).length

/-- Four triggers for tenant 1 inside the minute before `now = 120`. -/
def c1Store : Store :=
  { jobs := [],
    triggers := [⟨none, 1, 100⟩, ⟨none, 1, 101⟩, ⟨none, 1, 102⟩, ⟨none, 1, 103⟩] }

/-- A plain submit with no idempotency key. -/
def c1Data : Views.CreateData :=
  { label := "L", payload := emptyPayload, max_attempts := none,
    idempotency_key := none }

/-- A RUNNING job of tenant 1 (concurrency occupant). -/
def c4Running1 : Job := { baseJob with id := 11, status := .RUNNING }

/-- A second RUNNING job of tenant 1. -/
def c4Running2 : Job := { baseJob with id := 12, status := .RUNNING }

/-- The tenant's job table: two RUNNING jobs, i.e. at the default
`CONCURRENT_JOBS_LIMIT = 2`. -/
def c4Jobs : List Job := [c4Running1, c4Running2]

/-- A PENDING job whose attempt budget is already exhausted. -/
def c4Exhausted : Job := { baseJob with id := 13, attempts := 3 }

/-- A PENDING job with attempts to spare. -/
def c4Pending : Job := { baseJob with id := 14 }

/-- A THROTTLED job that is already due (`next_run_at ≤ now` for `now ≥ 5`). -/
def c5Throttled : Job :=
  { baseJob with id := 21, status := .THROTTLED, next_run_at := some 5 }

/-- A PENDING job of tenant 1. -/
def c5Pending : Job := { baseJob with id := 22 }

/-- Tenant 1 at the concurrency limit with one PENDING job. -/
def c5Jobs : List Job := [c4Running1, c4Running2, c5Pending]

/-- A terminal (DONE) job holding idempotency key "k1". -/
def c6DoneJob : Job :=
  { baseJob with id := 7, status := .DONE, stage := .DONE, progress := 100,
                 idempotency_key := some "k1", label := "A" }

/-- A store whose only job is the terminal key-holder. -/
def c6Store : Store := { jobs := [c6DoneJob], triggers := [] }

/-- A submit reusing key "k1" with a different label. -/
def c6Data : Views.CreateData :=
  { label := "B", payload := emptyPayload, max_attempts := none,
    idempotency_key := some "k1" }

/-- A mid-run job with progress 50 and a live lease. -/
def c7Running : Job :=
  { baseJob with id := 31, status := .RUNNING, stage := .PROCESSING,
                 progress := 50, locked_by := some "w", lease_until := some 100 }

/-- A never-leased submitted job: PENDING, attempts 0, `max_attempts` 3,
`updated_at` 0. -/
def c8Job : Job := { baseJob with id := 41 }

/-- A THROTTLED job whose backoff deadline has passed. -/
def c9Throttled : Job :=
  { baseJob with id := 51, status := .THROTTLED, next_run_at := some 5,
                 throttle_count := 1 }

/-- A one-row payload with an empty config. -/
def c10Payload : Payload :=
  { rows := [RowItem.RDict [("a", PyVal.VNum 1)]], config := [],
    csv_meta := false }

/-! ## Claim C2 — reads and state transitions -/

/-- C2 counterexample: with the default configuration
(`JOB_AUTO_ADVANCE=true`, delay 8), a GET retrieve of a PENDING job that is 8
seconds old moves it to RUNNING and bumps its attempts — a read changes
persisted state, contradicting the claim. -/
theorem c2_counterexample :
    baseJob.status = JobStatus.PENDING ∧
    (Views.retrieveView noFloat true 8 6 8 baseJob).status = JobStatus.RUNNING ∧
    (Views.retrieveView noFloat true 8 6 8 baseJob).attempts = 1 ∧
    baseJob.attempts = 0 := by
  refine ⟨rfl, ?_, ?_, rfl⟩ <;> rfl

/-- C2 amended: GET list, GET retrieve and GET stats never change any
persisted job field only when the `JOB_AUTO_ADVANCE` flag is disabled; with
the flag enabled (the default) they apply `_advance_job` to the queried jobs. -/
theorem c2_reads_pure_without_auto_advance (pf : String → Option Rat)
    (delay inc : Nat) (incOf : Nat → Nat) (now : Nat) (s : Settings)
    (tenant : Nat) (j : Job) (jobs : List Job) :
    Views.retrieveView pf false delay inc now j = j ∧
    Views.listViewStore pf false delay incOf now tenant jobs = jobs ∧
    (Views.statsView pf false delay incOf now s tenant jobs).1 = jobs := by
  refine ⟨rfl, ?_, ?_⟩ <;>
    simp [Views.listViewStore, Views.statsView]

/-! ## Claim C3 — terminality of DLQ and DONE -/



/-- C3 counterexample: the worker-facing `complete` endpoint moves a DLQ job
to DONE, and the `fail` endpoint moves a DONE job to FAILED — both leave a
terminal status without replay/retry, contradicting the claim. -/
theorem c3_counterexample :
    dlqJob.status = JobStatus.DLQ ∧
    (Views.completeView noFloat none 5 dlqJob).status = JobStatus.DONE ∧
    doneJob.status = JobStatus.DONE ∧
    (Views.failView "x" none 5 doneJob).status = JobStatus.FAILED := by
  refine ⟨rfl, rfl, rfl, rfl⟩

/-- C3 amended: replay is the only trigger path out of DLQ (to PENDING) and
retry the only one out of DONE (to PENDING), and the Runner's `proc`
transactions leave a DLQ/DONE job's status unchanged; but the worker-facing
HTTP `complete` and `fail` endpoints are unguarded: `complete` sets any job
(a DLQ job included) to DONE, and `fail` moves any job to FAILED or DLQ by
the attempt budget. -/
theorem c3_terminality :
    (∀ now : Nat, ∀ j j' : Job, j.status = JobStatus.DLQ →
      Views.replayView now j = some j' → j'.status = JobStatus.PENDING) ∧
    (∀ now : Nat, ∀ j j' : Job, j.status = JobStatus.DONE →
      Views.retryView now j = some j' → j'.status = JobStatus.PENDING) ∧
    (∀ now : Nat, ∀ j : Job, j.status = JobStatus.DLQ ∨ j.status = JobStatus.DONE →
      ∀ s : Settings, ∀ jobs : List Job,
        (Tasks.procDispatch s now jobs j).status = j.status) ∧
    (∀ now : Nat, ∀ j : Job, ∀ out : OutputSummary, j.status ≠ JobStatus.RUNNING →
      Tasks.procCompleteTxn out now j = j) ∧
    (∀ now : Nat, ∀ j : Job, ∀ pf : String → Option Rat,
      ∀ out : Option OutputSummary,
        (Views.completeView pf out now j).status = JobStatus.DONE) ∧
    (∀ now : Nat, ∀ j : Job, ∀ r : String, ∀ ri : Option Nat,
      (Views.failView r ri now j).status =
        if j.max_attempts ≤ j.attempts + 1 then JobStatus.DLQ else JobStatus.FAILED) := by
  refine ⟨?_, ?_, ?_, ?_, ?_, ?_⟩
  · intro now j j' hd h
    simp only [Views.replayView, hd, if_pos rfl] at h
    simp [Job.add_event] at h
    simp [← h]
  · intro now j j' hd h
    simp only [Views.retryView, hd] at h
    simp [Job.add_event] at h
    simp [← h]
  · intro now j hd s jobs
    rcases hd with h | h <;>
      simp [Tasks.procDispatch, h]
  · intro now j out h
    simp [Tasks.procCompleteTxn, h]
  · intro now j pf out
    simp [Views.completeView, Job.add_event]
  · intro now j r ri
    by_cases h : j.max_attempts ≤ j.attempts + 1 <;>
      simp [Views.failView, Job.add_event, h]

/-- C3 witness: the amended theorem applied at the concrete DLQ job — replay
moves it to PENDING, and the Runner's dispatch step keeps it in DLQ. -/
theorem c3_terminality_witness :
    (Tasks.procDispatch defaultSettings 5 [] dlqJob).status = dlqJob.status := by
  have h := c3_terminality
  exact h.2.2.1 5 dlqJob (Or.inl rfl) defaultSettings []

/-! ## Claim C1 — per-tenant rate limit on submit/retry/replay -/




/-- C1 failing input: tenant 1 already has `JOBS_PER_MIN_LIMIT` (= 4, the
default) triggers inside the last 60 s, yet `JobViewSet.create` inserts and
returns a fresh PENDING job, writes no `JobTrigger` row, and the API error
mapping (`_error_code_from_exception`) cannot even produce a `rate_limited`
code.  The claim's behaviour is absent from the code. -/
theorem c1_rate_limit_absent :
    defaultSettings.JOBS_PER_MIN_LIMIT ≤
      specRateLimitWindowCount c1Store.triggers 1 120 ∧
    (Views.createView 120 99 1 c1Data c1Store).1.triggers = c1Store.triggers ∧
    (∃ job : Job, (Views.createView 120 99 1 c1Data c1Store).2 =
        Views.CreateResult.created job ∧ job.status = JobStatus.PENDING) ∧
    (∀ e : ApiException, errorCodeFromException e ≠ "rate_limited") := by
  refine ⟨by decide, rfl, ⟨_, rfl, rfl⟩, ?_⟩
  intro e
  cases e <;> decide

/-! ## Claim C4 — throttling under concurrency pressure -/






/-- C4 counterexample: the claim quantifies over every PENDING/ready job whose
tenant is at the concurrency limit, but a job with `attempts ≥ max_attempts`
is sent to DLQ by the dispatch step before the concurrency check — it is not
throttled. -/
theorem c4_counterexample :
    defaultSettings.CONCURRENT_JOBS_LIMIT ≤
      Tasks.runningOthers c4Jobs c4Exhausted ∧
    c4Exhausted.status = JobStatus.PENDING ∧
    (Tasks.procDispatch defaultSettings 10 c4Jobs c4Exhausted).status =
      JobStatus.DLQ ∧
    (Tasks.procDispatch defaultSettings 10 c4Jobs c4Exhausted).throttle_count =
      c4Exhausted.throttle_count := by
  refine ⟨by decide, rfl, by decide, by decide⟩

/-- C4 amended: additionally require `attempts < max_attempts` (otherwise the
dispatch step short-circuits to DLQ) and `CONCURRENT_JOBS_LIMIT > 0` (a zero
limit disables the concurrency check).  Then the dispatch step throttles
exactly as claimed: THROTTLED, attempts unchanged, `throttle_count` + 1,
lease fields cleared, a THROTTLED event appended, and
`next_run_at = now + min(B × (1 + n), 300)` with `B` the configured
`JOB_THROTTLE_BACKOFF_SECONDS` (default 15) and `n` the pre-increment
`throttle_count`. -/
theorem c4_throttle (s : Settings) (now : Nat) (jobs : List Job) (j : Job)
    (hstatus : j.status = JobStatus.PENDING ∨
      (j.status = JobStatus.THROTTLED ∧ ∀ t ∈ j.next_run_at, t ≤ now))
    (hatt : j.attempts < j.max_attempts)
    (hlimit : 0 < s.CONCURRENT_JOBS_LIMIT)
    (hconc : s.CONCURRENT_JOBS_LIMIT ≤ Tasks.runningOthers jobs j) :
    (Tasks.procDispatch s now jobs j).status = JobStatus.THROTTLED ∧
    (Tasks.procDispatch s now jobs j).attempts = j.attempts ∧
    (Tasks.procDispatch s now jobs j).throttle_count = j.throttle_count + 1 ∧
    (Tasks.procDispatch s now jobs j).locked_by = none ∧
    (Tasks.procDispatch s now jobs j).lease_until = none ∧
    (Tasks.procDispatch s now jobs j).next_run_at =
      some (now + min (s.JOB_THROTTLE_BACKOFF_SECONDS * (1 + j.throttle_count)) 300) ∧
    ∃ ev : JobEvent, (Tasks.procDispatch s now jobs j).events = j.events ++ [ev] ∧
      ev.type = JobEventType.THROTTLED := by
  have h1 : ¬ (j.status ≠ JobStatus.PENDING ∧ j.status ≠ JobStatus.THROTTLED) := by
    rcases hstatus with h | ⟨h, _⟩ <;> simp [h]
  have h2 : ¬ (j.status = JobStatus.THROTTLED ∧
      Tasks.notYetDue now j.next_run_at = true) := by
    rcases hstatus with h | ⟨h, ht⟩
    · simp [h]
    · rintro ⟨-, hdue⟩
      cases hnr : j.next_run_at with
      | none => simp [Tasks.notYetDue, hnr] at hdue
      | some t =>
        have := ht t (by simp [hnr])
        simp [Tasks.notYetDue, hnr] at hdue
        omega
  have h3 : ¬ j.attempts ≥ j.max_attempts := by omega
  have h4 : s.CONCURRENT_JOBS_LIMIT ≠ 0 ∧
      Tasks.runningOthers jobs j ≥ s.CONCURRENT_JOBS_LIMIT := ⟨by omega, hconc⟩
  simp only [Tasks.procDispatch, if_neg h1, if_neg h2, if_neg h3, if_pos h4,
    Job.add_event]
  refine ⟨by simp, by simp, by simp, by simp, by simp,
    by simp [Tasks.throttleBackoffSeconds], ?_⟩
  refine ⟨⟨JobEventType.THROTTLED, now,
    [("next_run_at", MetaVal.MNat
        (now + Tasks.throttleBackoffSeconds s j.throttle_count)),
     ("throttle_count", MetaVal.MNat (j.throttle_count + 1))]⟩, ?_, rfl⟩
  simp [Tasks.throttleBackoffSeconds]

/-- C4 witness: the amended theorem at a concrete PENDING job of a tenant
with two RUNNING jobs under the default settings. -/
theorem c4_throttle_witness :
    (Tasks.procDispatch defaultSettings 10 c4Jobs c4Pending).status =
      JobStatus.THROTTLED ∧
    (Tasks.procDispatch defaultSettings 10 c4Jobs c4Pending).next_run_at =
      some (10 + min (15 * (1 + 0)) 300) ∧
    (Tasks.procDispatch defaultSettings 10 c4Jobs c4Pending).attempts =
      c4Pending.attempts := by
  have h := c4_throttle defaultSettings 10 c4Jobs c4Pending (Or.inl rfl)
    (by decide) (by decide) (by decide)
  exact ⟨h.1, h.2.2.2.2.2.1, h.2.1⟩

/-! ## Claim C5 — the lease operation -/

/-- The job produced by a `pickOlder` fold is the accumulator or a list
member, and its `created_at` is minimal among both. -/
lemma pickOlder_foldl (l : List Job) : ∀ (acc : Option Job) (j' : Job),
    l.foldl Views.pickOlder acc = some j' →
    (acc = some j' ∨ j' ∈ l) ∧
    (∀ b : Job, acc = some b → j'.created_at ≤ b.created_at) ∧
    (∀ k ∈ l, j'.created_at ≤ k.created_at) := by
  induction l with
  | nil =>
    intro acc j' h
    simp only [List.foldl_nil] at h
    refine ⟨Or.inl h, ?_, by simp⟩
    intro b hb
    rw [hb] at h
    cases h
    exact le_refl _
  | cons x xs ih =>
    intro acc j' h
    simp only [List.foldl_cons] at h
    obtain ⟨hmem, hacc, hxs⟩ := ih (Views.pickOlder acc x) j' h
    have hx : j'.created_at ≤ x.created_at := by
      cases acc with
      | none => exact hacc x rfl
      | some b =>
        simp only [Views.pickOlder] at hacc
        by_cases hlt : x.created_at < b.created_at
        · exact hacc x (by simp [hlt])
        · have := hacc b (by simp [hlt])
          omega
    refine ⟨?_, ?_, ?_⟩
    · rcases hmem with hm | hm
      · cases acc with
        | none =>
          simp only [Views.pickOlder] at hm
          cases hm
          exact Or.inr (List.mem_cons_self _ _)
        | some b =>
          simp only [Views.pickOlder] at hm
          by_cases hlt : x.created_at < b.created_at
          · rw [if_pos hlt] at hm
            cases hm
            exact Or.inr (List.mem_cons_self _ _)
          · rw [if_neg hlt] at hm
            exact Or.inl hm
      · exact Or.inr (List.mem_cons_of_mem _ hm)
    · intro b hb
      subst hb
      cases hbx : Views.pickOlder (some b) x with
      | none => simp [Views.pickOlder] at hbx; split at hbx <;> cases hbx
      | some c =>
        have hc := hacc c hbx
        simp only [Views.pickOlder] at hbx
        by_cases hlt : x.created_at < b.created_at
        · rw [if_pos hlt] at hbx
          cases hbx
          omega
        · rw [if_neg hlt] at hbx
          cases hbx
          exact hc
    · intro k hk
      rcases List.mem_cons.mp hk with hk | hk
      · subst hk; exact hx
      · exact hxs k hk

/-- `oldestPending` returns a PENDING job of the tenant with minimal
`created_at` among the tenant's PENDING jobs. -/
lemma oldestPending_spec (jobs : List Job) (tenant : Nat) (j' : Job)
    (h : Views.oldestPending jobs tenant = some j') :
    j' ∈ jobs ∧ j'.tenant = tenant ∧ j'.status = JobStatus.PENDING ∧
    ∀ k ∈ jobs, k.tenant = tenant → k.status = JobStatus.PENDING →
      j'.created_at ≤ k.created_at := by
  unfold Views.oldestPending at h
  obtain ⟨hmem, -, hmin⟩ := pickOlder_foldl _ none j' h
  rcases hmem with hm | hm
  · cases hm
  · have := List.mem_filter.mp hm
    obtain ⟨hj, hpred⟩ := this
    simp only [Bool.and_eq_true, beq_iff_eq] at hpred
    refine ⟨hj, hpred.1, hpred.2, ?_⟩
    intro k hk hkt hks
    exact hmin k (List.mem_filter.mpr ⟨hk, by simp [hkt, hks]⟩)




/-- C5 counterexample: with the tenant at `CONCURRENT_JOBS_LIMIT` the claim
requires the lease operation to throttle, and requires lease-accept to leave
attempts unchanged and to consider due THROTTLED jobs; but the endpoint
leases the PENDING job to RUNNING anyway, sets `attempts = 1` from 0, and a
due THROTTLED job alone yields the "nothing to do" sentinel. -/
theorem c5_counterexample :
    defaultSettings.CONCURRENT_JOBS_LIMIT ≤
      Tasks.runningOthers c5Jobs c5Pending ∧
    (Views.leaseView "w1" 120 10 1 c5Jobs).2 =
      Views.LeaseResult.leased (Views.leaseMutation "w1" 120 10 c5Pending) ∧
    (Views.leaseMutation "w1" 120 10 c5Pending).status = JobStatus.RUNNING ∧
    (Views.leaseMutation "w1" 120 10 c5Pending).attempts = 1 ∧
    c5Pending.attempts = 0 ∧
    (Views.leaseView "w1" 120 10 1 [c5Throttled]).2 =
      Views.LeaseResult.noJobs := by
  exact ⟨by decide, rfl, rfl, rfl, rfl, rfl⟩

/-- C5 amended: `JobViewSet.lease` selects only PENDING jobs (a due THROTTLED
job is never selected), picks the oldest by `created_at`, and unconditionally
applies the lease mutation — RUNNING, stage PROCESSING, `progress ≥ 5`,
`attempts = max(attempts, 1)` (not "attempts unchanged"), `locked_by`,
`lease_until = now + lease_seconds` — with no concurrency or attempts check;
it returns the "nothing to do" sentinel exactly when the tenant has no
PENDING job.  Concurrency-based throttling happens only in the Runner's
dispatch step. -/
theorem c5_lease_endpoint (worker : String) (ls now tenant : Nat)
    (jobs : List Job) :
    (Views.oldestPending jobs tenant = none →
      Views.leaseView worker ls now tenant jobs =
        (jobs, Views.LeaseResult.noJobs)) ∧
    (∀ j : Job, Views.oldestPending jobs tenant = some j →
      j ∈ jobs ∧ j.tenant = tenant ∧ j.status = JobStatus.PENDING ∧
      (∀ k ∈ jobs, k.tenant = tenant → k.status = JobStatus.PENDING →
        j.created_at ≤ k.created_at) ∧
      (Views.leaseView worker ls now tenant jobs).2 =
        Views.LeaseResult.leased (Views.leaseMutation worker ls now j) ∧
      (Views.leaseMutation worker ls now j).status = JobStatus.RUNNING ∧
      (Views.leaseMutation worker ls now j).stage = JobStage.PROCESSING ∧
      (Views.leaseMutation worker ls now j).progress = max j.progress 5 ∧
      (Views.leaseMutation worker ls now j).attempts = max j.attempts 1 ∧
      (Views.leaseMutation worker ls now j).locked_by = some worker ∧
      (Views.leaseMutation worker ls now j).lease_until = some (now + ls)) := by
  constructor
  · intro h
    simp [Views.leaseView, h]
  · intro j hj
    obtain ⟨hmem, ht, hs, hmin⟩ := oldestPending_spec jobs tenant j hj
    refine ⟨hmem, ht, hs, hmin, ?_, ?_, ?_, ?_, ?_, ?_, ?_⟩ <;>
      simp [Views.leaseView, hj, Views.leaseMutation, Job.add_event]

/-- C5 witness: the amended theorem at the concrete store — the PENDING job
is selected and leased with `lease_until = 10 + 120`. -/
theorem c5_lease_witness :
    (Views.leaseView "w1" 120 10 1 c5Jobs).2 =
      Views.LeaseResult.leased (Views.leaseMutation "w1" 120 10 c5Pending) ∧
    (Views.leaseMutation "w1" 120 10 c5Pending).lease_until = some (10 + 120) := by
  have h := (c5_lease_endpoint "w1" 120 10 1 c5Jobs).2 c5Pending rfl
  exact ⟨h.2.2.2.2.1, h.2.2.2.2.2.2.2.2.2.2⟩

/-! ## Claim C6 — idempotent submit -/




/-- C6 counterexample: the claim says a submit whose key matches only a
terminal job inserts a fresh PENDING job, but the code returns the DONE job
(original id and label) and inserts nothing — the lookup has no non-terminal
filter. -/
theorem c6_counterexample :
    c6DoneJob.status = JobStatus.DONE ∧
    (Views.createView 50 99 1 c6Data c6Store).2 =
      Views.CreateResult.matched c6DoneJob ∧
    (Views.createView 50 99 1 c6Data c6Store).1.jobs = [c6DoneJob] := by
  exact ⟨rfl, rfl, rfl⟩

/-- C6 amended: submit with an idempotency key returns the existing job for
`(tenant, K)` unchanged whenever one exists — terminal or not — and inserts a
fresh PENDING job only when no job holds the key; two consecutive submits
with the same key return the same job id unconditionally. -/
theorem c6_idempotent_submit (now newId tenant : Nat)
    (data : Views.CreateData) (store : Store) :
    (∀ k : String, Views.resolveIdempotencyKey data = some k →
      (∀ job : Job, store.jobs.find? (Views.idemMatch tenant k) = some job →
        Views.createView now newId tenant data store =
          (store, Views.CreateResult.matched job)) ∧
      (store.jobs.find? (Views.idemMatch tenant k) = none →
        Views.createView now newId tenant data store =
          ({ store with
              jobs := store.jobs ++ [Views.freshJob now newId tenant data (some k)] },
           Views.CreateResult.created
             (Views.freshJob now newId tenant data (some k))) ∧
        (Views.freshJob now newId tenant data (some k)).id = newId ∧
        (Views.freshJob now newId tenant data (some k)).status = JobStatus.PENDING ∧
        (Views.freshJob now newId tenant data (some k)).attempts = 0 ∧
        (Views.freshJob now newId tenant data (some k)).label = data.label ∧
        (Views.freshJob now newId tenant data (some k)).tenant = tenant ∧
        (Views.freshJob now newId tenant data (some k)).idempotency_key = some k ∧
        ∀ now2 newId2 : Nat, ∀ data2 : Views.CreateData,
          Views.resolveIdempotencyKey data2 = some k →
          (Views.createView now2 newId2 tenant data2
            { store with
                jobs := store.jobs ++
                  [Views.freshJob now newId tenant data (some k)] }).2 =
            Views.CreateResult.matched
              (Views.freshJob now newId tenant data (some k)))) ∧
    (Views.resolveIdempotencyKey data = none →
      Views.createView now newId tenant data store =
        ({ store with
            jobs := store.jobs ++ [Views.freshJob now newId tenant data none] },
         Views.CreateResult.created (Views.freshJob now newId tenant data none)) ∧
      (Views.freshJob now newId tenant data none).id = newId ∧
      (Views.freshJob now newId tenant data none).status = JobStatus.PENDING) := by
  constructor
  · intro k hk
    constructor
    · intro job hfind
      simp [Views.createView, hk, hfind]
    · intro hfind
      have hfresh : Views.idemMatch tenant k
          (Views.freshJob now newId tenant data (some k)) = true := by
        simp [Views.idemMatch, Views.freshJob, Job.add_event]
      refine ⟨by simp [Views.createView, hk, hfind],
        rfl, rfl, rfl, rfl, rfl, rfl, ?_⟩
      intro now2 newId2 data2 hk2
      simp [Views.createView, hk2, List.find?_append, hfind, hfresh]
  · intro hk
    exact ⟨by simp [Views.createView, hk], rfl, rfl⟩

/-- C6 witness: the amended theorem at a concrete empty store — the first
submit inserts a fresh PENDING job carrying the key, the second returns it. -/
theorem c6_idempotent_submit_witness :
    (Views.createView 50 99 1 c6Data { jobs := [], triggers := [] }).2 =
      Views.CreateResult.created
        (Views.freshJob 50 99 1 c6Data (some "k1")) ∧
    (Views.freshJob 50 99 1 c6Data (some "k1")).id = 99 ∧
    (Views.freshJob 50 99 1 c6Data (some "k1")).status = JobStatus.PENDING ∧
    (Views.createView 60 100 1 c6Data
      { jobs := [Views.freshJob 50 99 1 c6Data (some "k1")], triggers := [] }).2 =
      Views.CreateResult.matched (Views.freshJob 50 99 1 c6Data (some "k1")) := by
  have h := ((c6_idempotent_submit 50 99 1 c6Data
    { jobs := [], triggers := [] }).1 "k1" rfl).2 rfl
  obtain ⟨heq, hid, hst, -, -, -, -, hsecond⟩ := h
  refine ⟨by rw [heq], hid, hst, ?_⟩
  simpa using hsecond 60 100 c6Data rfl

/-! ## Claim C7 — progress bounds and the progress endpoint -/


/-- C7 counterexample: the progress endpoint lowers a RUNNING job's progress
from 50 to 10, leaves `lease_until` untouched, and also applies to a DONE
job — contradicting "only while RUNNING", "never decreases", and "extends
lease_until". -/
theorem c7_counterexample :
    c7Running.status = JobStatus.RUNNING ∧ c7Running.progress = 50 ∧
    (∃ j' : Job, Views.progressView 10 5 none 60 c7Running = some j' ∧
      j'.progress = 10 ∧ j'.lease_until = c7Running.lease_until) ∧
    (∃ j' : Job, Views.progressView 10 5 none 60 doneJob = some j' ∧
      j'.status = JobStatus.DONE) := by
  exact ⟨rfl, rfl, ⟨_, rfl, rfl, rfl⟩, ⟨_, rfl, rfl⟩⟩

/-- Progress bound through `_advance_job`. -/
lemma advanceJob_progress_le (pf : String → Option Rat) (delay inc now : Nat)
    (j : Job) (hj : j.progress ≤ 100) :
    (Views.advanceJob pf delay inc now j).progress ≤ 100 := by
  unfold Views.advanceJob
  dsimp only [Job.add_event]
  split_ifs <;> (try dsimp only) <;> omega

/-- Progress bound through the lease endpoint's mutation. -/
lemma leaseMutation_progress_le (w : String) (ls now : Nat) (j : Job)
    (hj : j.progress ≤ 100) :
    (Views.leaseMutation w ls now j).progress ≤ 100 := by
  unfold Views.leaseMutation
  dsimp only [Job.add_event]
  omega

/-- Progress bound through the Runner's dispatch step. -/
lemma procDispatch_progress_le (s : Settings) (now : Nat) (jobs : List Job)
    (j : Job) (hj : j.progress ≤ 100) :
    (Tasks.procDispatch s now jobs j).progress ≤ 100 := by
  unfold Tasks.procDispatch
  dsimp only [Job.add_event]
  split_ifs <;> (try dsimp only) <;> omega

/-- `_mark_failed` leaves progress unchanged. -/
lemma markFailed_progress (r : String) (now ri : Nat) (j : Job) :
    (Tasks.markFailed r now ri j).progress = j.progress := rfl

/-- Progress bound through the Runner's failure transaction. -/
lemma procFailTxn_progress (s : Settings) (r : String) (now : Nat) (j : Job) :
    (Tasks.procFailTxn s r now j).progress = j.progress := by
  unfold Tasks.procFailTxn Tasks.markFailed
  dsimp only [Job.add_event]
  split_ifs <;> rfl

/-- The pending-timeout step leaves progress unchanged. -/
lemma reconcilePendingTimeout_progress (s : Settings) (now : Nat) (j : Job) :
    (Tasks.reconcilePendingTimeout s now j).progress = j.progress := by
  unfold Tasks.reconcilePendingTimeout Tasks.markFailed
  dsimp only [Job.add_event]
  split_ifs <;> rfl

/-- The throttled-requeue step leaves progress unchanged. -/
lemma reconcileThrottledReady_progress (now : Nat) (j : Job) :
    (Tasks.reconcileThrottledReady now j).progress = j.progress := by
  unfold Tasks.reconcileThrottledReady
  split_ifs <;> rfl

/-- The failed-retry step never raises progress (it resets it to 0 or leaves
it alone). -/
lemma reconcileFailedReady_progress_le (now : Nat) (j : Job) :
    (Tasks.reconcileFailedReady now j).progress ≤ j.progress := by
  unfold Tasks.reconcileFailedReady
  dsimp only [Job.add_event]
  split_ifs <;> (try dsimp only) <;> omega

/-- The lease-expiry step leaves progress unchanged. -/
lemma reconcileLeaseExpired_progress (s : Settings) (now : Nat) (j : Job) :
    (Tasks.reconcileLeaseExpired s now j).progress = j.progress := by
  unfold Tasks.reconcileLeaseExpired Tasks.markFailed
  dsimp only [Job.add_event]
  split_ifs <;> rfl

/-- Progress through one whole reconciler pass on a job. -/
lemma reconcileJob_progress_le (s : Settings) (now : Nat) (j : Job)
    (hj : j.progress ≤ 100) :
    (Tasks.reconcileJob s now j).progress ≤ 100 := by
  unfold Tasks.reconcileJob
  rw [reconcileLeaseExpired_progress]
  calc (Tasks.reconcileFailedReady now
          (Tasks.reconcileThrottledReady now
            (Tasks.reconcilePendingTimeout s now j))).progress
      ≤ (Tasks.reconcileThrottledReady now
          (Tasks.reconcilePendingTimeout s now j)).progress :=
        reconcileFailedReady_progress_le _ _
    _ = j.progress := by
        rw [reconcileThrottledReady_progress, reconcilePendingTimeout_progress]
    _ ≤ 100 := hj

/-- C7 amended: `0 ≤ progress ≤ 100` is indeed preserved by every embedded
operation; the progress endpoint enforces the serializer bound 0..100 and
appends a `PROGRESS_UPDATED` event, but it applies to a job in any status
(not only RUNNING), may decrease progress within a RUNNING span, and does not
extend `lease_until`. -/
theorem c7_progress_bounds_and_endpoint :
    (∀ p pr : Nat, ∀ st : Option JobStage, ∀ now : Nat, ∀ j j' : Job,
      Views.progressView p pr st now j = some j' →
      p ≤ 100 ∧ j'.progress = p ∧ j'.processed_rows = pr ∧
      j'.status = j.status ∧ j'.lease_until = j.lease_until ∧
      ∃ ev : JobEvent, j'.events = j.events ++ [ev] ∧
        ev.type = JobEventType.PROGRESS_UPDATED) ∧
    (∀ j : Job, j.progress ≤ 100 →
      (∀ pf : String → Option Rat, ∀ delay inc now : Nat,
        (Views.advanceJob pf delay inc now j).progress ≤ 100) ∧
      (∀ w : String, ∀ ls now : Nat,
        (Views.leaseMutation w ls now j).progress ≤ 100) ∧
      (∀ pf : String → Option Rat, ∀ out : Option OutputSummary, ∀ now : Nat,
        (Views.completeView pf out now j).progress ≤ 100) ∧
      (∀ r : String, ∀ ri : Option Nat, ∀ now : Nat,
        (Views.failView r ri now j).progress ≤ 100) ∧
      (∀ now : Nat, ∀ j' : Job, Views.retryView now j = some j' →
        j'.progress ≤ 100) ∧
      (∀ now : Nat, ∀ j' : Job, Views.replayView now j = some j' →
        j'.progress ≤ 100) ∧
      (∀ s : Settings, ∀ now : Nat, ∀ jobs : List Job,
        (Tasks.procDispatch s now jobs j).progress ≤ 100) ∧
      (∀ out : OutputSummary, ∀ now : Nat,
        (Tasks.procCompleteTxn out now j).progress ≤ 100) ∧
      (∀ s : Settings, ∀ r : String, ∀ now : Nat,
        (Tasks.procFailTxn s r now j).progress ≤ 100) ∧
      (∀ s : Settings, ∀ now : Nat,
        (Tasks.reconcileJob s now j).progress ≤ 100)) ∧
    (∀ now newId tenant : Nat, ∀ data : Views.CreateData, ∀ k : Option String,
      (Views.freshJob now newId tenant data k).progress ≤ 100) := by
  refine ⟨?_, ?_, ?_⟩
  · intro p pr st now j j' h
    unfold Views.progressView at h
    by_cases hp : p ≤ 100
    · rw [if_pos hp] at h
      cases h
      refine ⟨hp, rfl, rfl, rfl, rfl,
        ⟨JobEventType.PROGRESS_UPDATED, now, [("progress", MetaVal.MNat p)]⟩,
        by simp [Job.add_event], rfl⟩
    · rw [if_neg hp] at h
      cases h
  · intro j hj
    refine ⟨fun pf delay inc now => advanceJob_progress_le pf delay inc now j hj,
      fun w ls now => leaseMutation_progress_le w ls now j hj,
      fun pf out now => le_refl 100,
      ?_, ?_, ?_,
      fun s now jobs => procDispatch_progress_le s now jobs j hj,
      ?_,
      fun s r now => (procFailTxn_progress s r now j).le.trans hj,
      fun s now => reconcileJob_progress_le s now j hj⟩
    · intro r ri now
      unfold Views.failView
      dsimp only [Job.add_event]
      split_ifs <;> (try dsimp only) <;> omega
    · intro now j' h
      unfold Views.retryView at h
      split_ifs at h
      cases h
      simp [Job.add_event]
    · intro now j' h
      unfold Views.replayView at h
      split_ifs at h
      cases h
      simp [Job.add_event]
    · intro out now
      unfold Tasks.procCompleteTxn
      dsimp only [Job.add_event]
      split_ifs <;> (try dsimp only) <;> omega
  · intro now newId tenant data k
    simp [Views.freshJob, Job.add_event]

/-- C7 witness: the amended theorem at the concrete mid-run job — the
Runner's dispatch step keeps progress within bounds. -/
theorem c7_progress_witness :
    (Tasks.procDispatch defaultSettings 10 c4Jobs c7Running).progress ≤ 100 := by
  have h := c7_progress_bounds_and_endpoint
  exact (h.2.1 c7Running (by decide)).2.2.2.2.2.2.1 defaultSettings 10 c4Jobs

/-! ## Claim C8 — pending-timeout reconciliation -/


/-- C8: a reconciler pass on an overdue PENDING job increments attempts and
marks it FAILED with reason "Pending timeout" and `next_retry_at` set, or DLQ
when the incremented attempts reach `max_attempts`; concretely (default
settings: timeout 10 s, retry delay 5 s) a never-leased job with
`max_attempts = 3` is FAILED with attempts 1 after one pass at t = 11, and
DLQ after the passes at t = 17, 28, 34, 45 (requeue and time-out alternate,
preserving attempts). -/
theorem c8_pending_timeout_reconciler :
    (∀ s : Settings, ∀ now : Nat, ∀ j : Job,
      j.status = JobStatus.PENDING →
      j.updated_at + s.JOB_PENDING_TIMEOUT_SECONDS < now →
      (Tasks.reconcilePendingTimeout s now j).attempts = j.attempts + 1 ∧
      (Tasks.reconcilePendingTimeout s now j).failure_reason =
        some "Pending timeout" ∧
      (j.attempts + 1 < j.max_attempts →
        (Tasks.reconcilePendingTimeout s now j).status = JobStatus.FAILED ∧
        (Tasks.reconcilePendingTimeout s now j).next_retry_at =
          some (now + s.JOB_RETRY_DELAY_SECONDS)) ∧
      (j.max_attempts ≤ j.attempts + 1 →
        (Tasks.reconcilePendingTimeout s now j).status = JobStatus.DLQ)) ∧
    ((Tasks.reconcileJob defaultSettings 11 c8Job).status = JobStatus.FAILED ∧
     (Tasks.reconcileJob defaultSettings 11 c8Job).attempts = 1 ∧
     (Tasks.reconcileJob defaultSettings 11 c8Job).failure_reason =
       some "Pending timeout" ∧
     (Tasks.reconcileJob defaultSettings 45
       (Tasks.reconcileJob defaultSettings 34
         (Tasks.reconcileJob defaultSettings 28
           (Tasks.reconcileJob defaultSettings 17
             (Tasks.reconcileJob defaultSettings 11 c8Job))))).status =
       JobStatus.DLQ ∧
     (Tasks.reconcileJob defaultSettings 45
       (Tasks.reconcileJob defaultSettings 34
         (Tasks.reconcileJob defaultSettings 28
           (Tasks.reconcileJob defaultSettings 17
             (Tasks.reconcileJob defaultSettings 11 c8Job))))).attempts = 3) := by
  constructor
  · intro s now j hp ht
    have hcond : j.status = JobStatus.PENDING ∧
        j.updated_at + s.JOB_PENDING_TIMEOUT_SECONDS < now := ⟨hp, ht⟩
    unfold Tasks.reconcilePendingTimeout
    rw [if_pos hcond]
    dsimp only [Tasks.markFailed, Job.add_event]
    refine ⟨?_, ?_, ?_, ?_⟩
    · split_ifs <;> rfl
    · split_ifs <;> rfl
    · intro hlt
      rw [if_neg (by omega)]
      exact ⟨rfl, rfl⟩
    · intro hge
      rw [if_pos (by omega)]
  · refine ⟨by decide, by decide, by decide, by decide, by decide⟩

/-- C8 witness: the general step at the concrete never-leased job at t = 11
under the default settings. -/
theorem c8_pending_timeout_witness :
    (Tasks.reconcilePendingTimeout defaultSettings 11 c8Job).attempts =
      c8Job.attempts + 1 ∧
    (Tasks.reconcilePendingTimeout defaultSettings 11 c8Job).status =
      JobStatus.FAILED := by
  have h := c8_pending_timeout_reconciler.1 defaultSettings 11 c8Job rfl
    (by decide)
  exact ⟨h.1, (h.2.2.1 (by decide)).1⟩

/-! ## Claim C9 — append-only events and transition logging -/


/-- C9 counterexample: the reconciler's THROTTLED→PENDING requeue changes the
status but appends no event, contradicting "every status transition performed
by any … Reconciler operation — including the THROTTLED-to-PENDING requeue —
appends at least one event". -/
theorem c9_counterexample :
    c9Throttled.status = JobStatus.THROTTLED ∧
    (Tasks.reconcileThrottledReady 10 c9Throttled).status = JobStatus.PENDING ∧
    (Tasks.reconcileThrottledReady 10 c9Throttled).events =
      c9Throttled.events := by
  exact ⟨rfl, by decide, by decide⟩

/-- C9 amended: the events list is append-only across every embedded
operation, and every status transition appends at least one event — except
the reconciler's THROTTLED→PENDING requeue, which changes the status and
appends none. -/
theorem c9_events_append_only :
    (∀ pf : String → Option Rat, ∀ delay inc now : Nat, ∀ j : Job,
      (Views.advanceJob pf delay inc now j).events.take j.events.length =
        j.events ∧
      ((Views.advanceJob pf delay inc now j).status ≠ j.status →
        j.events.length < (Views.advanceJob pf delay inc now j).events.length)) ∧
    (∀ now : Nat, ∀ j j' : Job, Views.retryView now j = some j' →
      j'.events.take j.events.length = j.events ∧
      j.events.length < j'.events.length) ∧
    (∀ now : Nat, ∀ j j' : Job, Views.replayView now j = some j' →
      j'.events.take j.events.length = j.events ∧
      j.events.length < j'.events.length) ∧
    (∀ w : String, ∀ ls now : Nat, ∀ j : Job,
      (Views.leaseMutation w ls now j).events.take j.events.length = j.events ∧
      j.events.length < (Views.leaseMutation w ls now j).events.length) ∧
    (∀ p pr : Nat, ∀ st : Option JobStage, ∀ now : Nat, ∀ j j' : Job,
      Views.progressView p pr st now j = some j' →
      j'.events.take j.events.length = j.events ∧
      j.events.length < j'.events.length) ∧
    (∀ pf : String → Option Rat, ∀ out : Option OutputSummary, ∀ now : Nat,
      ∀ j : Job,
      (Views.completeView pf out now j).events.take j.events.length =
        j.events ∧
      j.events.length < (Views.completeView pf out now j).events.length) ∧
    (∀ r : String, ∀ ri : Option Nat, ∀ now : Nat, ∀ j : Job,
      (Views.failView r ri now j).events.take j.events.length = j.events ∧
      j.events.length < (Views.failView r ri now j).events.length) ∧
    (∀ s : Settings, ∀ now : Nat, ∀ jobs : List Job, ∀ j : Job,
      (Tasks.procDispatch s now jobs j).events.take j.events.length =
        j.events ∧
      ((Tasks.procDispatch s now jobs j).status ≠ j.status →
        j.events.length < (Tasks.procDispatch s now jobs j).events.length)) ∧
    (∀ out : OutputSummary, ∀ now : Nat, ∀ j : Job,
      (Tasks.procCompleteTxn out now j).events.take j.events.length =
        j.events ∧
      ((Tasks.procCompleteTxn out now j).status ≠ j.status →
        j.events.length < (Tasks.procCompleteTxn out now j).events.length)) ∧
    (∀ s : Settings, ∀ r : String, ∀ now : Nat, ∀ j : Job,
      (Tasks.procFailTxn s r now j).events.take j.events.length = j.events ∧
      j.events.length < (Tasks.procFailTxn s r now j).events.length) ∧
    (∀ s : Settings, ∀ now : Nat, ∀ j : Job,
      (Tasks.reconcilePendingTimeout s now j).events.take j.events.length =
        j.events ∧
      ((Tasks.reconcilePendingTimeout s now j).status ≠ j.status →
        j.events.length <
          (Tasks.reconcilePendingTimeout s now j).events.length)) ∧
    (∀ now : Nat, ∀ j : Job,
      (Tasks.reconcileFailedReady now j).events.take j.events.length =
        j.events ∧
      ((Tasks.reconcileFailedReady now j).status ≠ j.status →
        j.events.length < (Tasks.reconcileFailedReady now j).events.length)) ∧
    (∀ s : Settings, ∀ now : Nat, ∀ j : Job,
      (Tasks.reconcileLeaseExpired s now j).events.take j.events.length =
        j.events ∧
      ((Tasks.reconcileLeaseExpired s now j).status ≠ j.status →
        j.events.length <
          (Tasks.reconcileLeaseExpired s now j).events.length)) ∧
    (∀ now : Nat, ∀ j : Job,
      (Tasks.reconcileThrottledReady now j).events = j.events) ∧
    (∀ now : Nat, ∀ j : Job, j.status = JobStatus.THROTTLED →
      Tasks.dueOrNull now j.next_run_at = true →
      (Tasks.reconcileThrottledReady now j).status = JobStatus.PENDING) ∧
    (∀ now newId tenant : Nat, ∀ data : Views.CreateData, ∀ k : Option String,
      (Views.freshJob now newId tenant data k).events =
        [⟨JobEventType.SUBMITTED, now, []⟩]) := by
  refine ⟨?_, ?_, ?_, ?_, ?_, ?_, ?_, ?_, ?_, ?_, ?_, ?_, ?_, ?_, ?_, ?_⟩
  · intro pf delay inc now j
    unfold Views.advanceJob
    dsimp only [Job.add_event]
    split_ifs <;>
      refine ⟨by simp [List.take_left], ?_⟩ <;>
      (intro h; simp at h ⊢)
  · intro now j j' h
    unfold Views.retryView at h
    split_ifs at h
    cases h
    dsimp only [Job.add_event]
    exact ⟨by simp [List.take_left], by simp⟩
  · intro now j j' h
    unfold Views.replayView at h
    split_ifs at h
    cases h
    dsimp only [Job.add_event]
    exact ⟨by simp [List.take_left], by simp⟩
  · intro w ls now j
    unfold Views.leaseMutation
    dsimp only [Job.add_event]
    exact ⟨by simp [List.take_left], by simp⟩
  · intro p pr st now j j' h
    unfold Views.progressView at h
    split_ifs at h
    cases h
    dsimp only [Job.add_event]
    exact ⟨by simp [List.take_left], by simp⟩
  · intro pf out now j
    unfold Views.completeView
    dsimp only [Job.add_event]
    exact ⟨by simp [List.take_left], by simp⟩
  · intro r ri now j
    unfold Views.failView
    dsimp only [Job.add_event]
    split_ifs <;> exact ⟨by simp [List.take_left], by simp⟩
  · intro s now jobs j
    unfold Tasks.procDispatch
    dsimp only [Job.add_event]
    split_ifs <;>
      refine ⟨by simp [List.take_left], ?_⟩ <;>
      (intro h; simp at h ⊢)
  · intro out now j
    unfold Tasks.procCompleteTxn
    dsimp only [Job.add_event]
    split_ifs <;>
      refine ⟨by simp [List.take_left], ?_⟩ <;>
      (intro h; simp at h ⊢)
  · intro s r now j
    unfold Tasks.procFailTxn Tasks.markFailed
    dsimp only [Job.add_event]
    split_ifs <;> exact ⟨by simp [List.take_left], by simp⟩
  · intro s now j
    unfold Tasks.reconcilePendingTimeout Tasks.markFailed
    dsimp only [Job.add_event]
    split_ifs <;>
      refine ⟨by simp [List.take_left], ?_⟩ <;>
      (intro h; simp at h ⊢)
  · intro now j
    unfold Tasks.reconcileFailedReady
    dsimp only [Job.add_event]
    split_ifs <;>
      refine ⟨by simp [List.take_left], ?_⟩ <;>
      (intro h; simp at h ⊢)
  · intro s now j
    unfold Tasks.reconcileLeaseExpired Tasks.markFailed
    dsimp only [Job.add_event]
    split_ifs <;>
      refine ⟨by simp [List.take_left], ?_⟩ <;>
      (intro h; simp at h ⊢)
  · intro now j
    unfold Tasks.reconcileThrottledReady
    split_ifs <;> rfl
  · intro now j hs hd
    unfold Tasks.reconcileThrottledReady
    rw [if_pos ⟨hs, hd⟩]
  · intro now newId tenant data k
    simp [Views.freshJob, Job.add_event]

/-- C9 witness: the amended theorem at the concrete ready THROTTLED job — the
requeue transitions it to PENDING while its events list stays untouched. -/
theorem c9_events_witness :
    (Tasks.reconcileThrottledReady 10 c9Throttled).status = JobStatus.PENDING ∧
    (Tasks.reconcileThrottledReady 10 c9Throttled).events =
      c9Throttled.events := by
  have h := c9_events_append_only
  exact ⟨h.2.2.2.2.2.2.2.2.2.2.2.2.2.2.1 10 c9Throttled rfl (by decide),
    h.2.2.2.2.2.2.2.2.2.2.2.2.2.1 10 c9Throttled⟩

/-! ## Claim C10 — `build_output_result` partitions the rows -/

/-- Each `_process_rows` iteration classifies its row into exactly one of
valid / invalid / duplicate, and bumps `nulls_dropped` only alongside
`invalid_rows`. -/
lemma processItem_partition (ve : String → Bool) (pf : String → Option Rat)
    (cfg : Processing.Config) (st : Processing.ProcState) (item : RowItem) :
    (Processing.processItem ve pf cfg st item).valid_rows.length +
        (Processing.processItem ve pf cfg st item).invalid_rows +
        (Processing.processItem ve pf cfg st item).duplicates_removed =
      st.valid_rows.length + st.invalid_rows + st.duplicates_removed + 1 ∧
    (Processing.processItem ve pf cfg st item).nulls_dropped +
        st.invalid_rows ≤
      st.nulls_dropped +
        (Processing.processItem ve pf cfg st item).invalid_rows := by
  cases item with
  | ROther v =>
    dsimp only [Processing.processItem]
    omega
  | RDict row =>
    unfold Processing.processItem
    dsimp only
    split_ifs <;> simp <;> omega

/-- The `_process_rows` fold preserves the partition count and the
`nulls_dropped ≤ invalid_rows` slack. -/
lemma processRows_partition (ve : String → Bool) (pf : String → Option Rat)
    (cfg : Processing.Config) :
    ∀ (rows : List RowItem) (st : Processing.ProcState),
      ((rows.foldl (Processing.processItem ve pf cfg) st).valid_rows.length +
          (rows.foldl (Processing.processItem ve pf cfg) st).invalid_rows +
          (rows.foldl (Processing.processItem ve pf cfg) st).duplicates_removed
        = st.valid_rows.length + st.invalid_rows + st.duplicates_removed +
          rows.length) ∧
      ((rows.foldl (Processing.processItem ve pf cfg) st).nulls_dropped +
          st.invalid_rows ≤
        st.nulls_dropped +
          (rows.foldl (Processing.processItem ve pf cfg) st).invalid_rows) := by
  intro rows
  induction rows with
  | nil => intro st; simp
  | cons x xs ih =>
    intro st
    simp only [List.foldl_cons, List.length_cons]
    have h1 := processItem_partition ve pf cfg st x
    have h2 := ih (Processing.processItem ve pf cfg st x)
    omega

/-- `_process_rows` from the empty initial state: the three buckets sum to
the row count and `nulls_dropped` stays below `invalid_rows`. -/
lemma processRows_counts (ve : String → Bool) (pf : String → Option Rat)
    (cfg : Processing.Config) (rows : List RowItem) :
    (Processing.processRows ve pf rows cfg).valid_rows.length +
        (Processing.processRows ve pf rows cfg).invalid_rows +
        (Processing.processRows ve pf rows cfg).duplicates_removed =
      rows.length ∧
    (Processing.processRows ve pf rows cfg).nulls_dropped ≤
      (Processing.processRows ve pf rows cfg).invalid_rows := by
  have h := processRows_partition ve pf cfg rows Processing.initProcState
  simp only [Processing.processRows, Processing.initProcState] at h ⊢
  simp only [List.length_nil] at h
  omega

/-- C10: `build_output_result` partitions the input rows — `totalProcessed`
equals `totalValid + totalInvalid + duplicatesRemoved`, `nullsDropped` never
exceeds `totalInvalid`, and `outputData`, when present, is exactly the first
(at most) 50 valid rows; universally over the external email validator,
float parser and JSON parser. -/
theorem c10_partition (ve : String → Bool) (pf : String → Option Rat)
    (jp : String → Option PyVal) (payload : Payload) :
    (Processing.buildOutputResult ve pf jp payload).totalProcessed =
        (Processing.buildOutputResult ve pf jp payload).totalValid +
        (Processing.buildOutputResult ve pf jp payload).totalInvalid +
        (Processing.buildOutputResult ve pf jp payload).duplicatesRemoved ∧
    (Processing.buildOutputResult ve pf jp payload).nullsDropped ≤
      (Processing.buildOutputResult ve pf jp payload).totalInvalid ∧
    ∀ l : List Row,
      (Processing.buildOutputResult ve pf jp payload).outputData = some l →
      l = (Processing.processRows ve pf payload.rows
            (Processing.extractConfig jp payload)).valid_rows.take 50 ∧
      l.length ≤ 50 := by
  have h := processRows_counts ve pf (Processing.extractConfig jp payload)
    payload.rows
  unfold Processing.buildOutputResult
  dsimp only
  refine ⟨by omega, by omega, ?_⟩
  intro l hl
  by_cases he : (Processing.processRows ve pf payload.rows
      (Processing.extractConfig jp payload)).valid_rows.isEmpty
  · rw [if_pos he] at hl
    cases hl
  · rw [if_neg he] at hl
    cases hl
    exact ⟨rfl, List.length_take_le _ _⟩


/-- C10 witness: the partition theorem at a concrete one-row payload with the
trivial external validators — the single row is valid and is returned in
`outputData`. -/
theorem c10_partition_witness :
    (Processing.buildOutputResult noEmail noFloat noJson c10Payload).totalProcessed
      = (Processing.buildOutputResult noEmail noFloat noJson c10Payload).totalValid +
        (Processing.buildOutputResult noEmail noFloat noJson c10Payload).totalInvalid +
        (Processing.buildOutputResult noEmail noFloat noJson c10Payload).duplicatesRemoved ∧
    ([[("a", PyVal.VNum 1)]] : List Row) =
      (Processing.processRows noEmail noFloat c10Payload.rows
        (Processing.extractConfig noJson c10Payload)).valid_rows.take 50 := by
  have h := c10_partition noEmail noFloat noJson c10Payload
  exact ⟨h.1, (h.2.2 [[("a", PyVal.VNum 1)]] (by rfl)).1⟩
